import Mathlib

/-!
# wepoll: the AFD driver interface layer (`src/afd.c`)

A shallow embedding of `afd.c` and a verification of its contract.

* Machine integers are `Nat` / `Int`; `uintptr_t` arithmetic is reduced modulo `2 ^ bits`,
  where `bits` is the pointer width of the build.
* A `GUID` is compared through its 16-byte memory image, as `memcmp` does.
* Calls into the operating system are answered by an explicit scenario record; every call
  is appended to the trace of the `World`, which also carries the thread's last-error value
  and the kernel objects that are currently open.
-/

namespace Wepoll

/-! ## Scalar types and platform constants -/

abbrev DWORD := Nat
abbrev HANDLE := Nat
abbrev SOCKET := Nat
abbrev NTSTATUS := Int

def FILE_DEVICE_NETWORK : Nat := 0x00000012
def METHOD_BUFFERED : Nat := 0
def AFD_POLL : Nat := 9

def _AFD_CONTROL_CODE (operation method : Nat) : Nat :=
  FILE_DEVICE_NETWORK <<< 12 ||| (operation <<< 2) ||| method

def IOCTL_AFD_POLL : Nat := _AFD_CONTROL_CODE AFD_POLL METHOD_BUFFERED

def _AFD_ANY_PROTOCOL : Int := -1

/-! The constants below come from the platform headers (`winsock2.h`, `winerror.h`,
`winbase.h`, `ntstatus.h`); `afd.c` uses them by name. -/

/-- The protocol number of UDP. -/
def IPPROTO_UDP : Int := 17
/-- The protocol number of TCP. -/
def IPPROTO_TCP : Int := 6
/-- The null pointer / null handle. -/
def NULL : HANDLE := 0
def STATUS_SUCCESS : NTSTATUS := 0x00000000
def STATUS_PENDING : NTSTATUS := 0x00000103
def ERROR_IO_PENDING : DWORD := 997
def ERROR_DEVICE_FEATURE_NOT_SUPPORTED : DWORD := 316
def WSAENETDOWN : DWORD := 10050
def WAIT_FAILED : DWORD := 0xFFFFFFFF
def INFINITE : DWORD := 0xFFFFFFFF
def HANDLE_FLAG_INHERIT : DWORD := 0x00000001
def WSA_FLAG_OVERLAPPED : DWORD := 0x01

/-- The value `(SOCKET)(~0)` on a build whose pointers have `bits` bits. -/
def INVALID_SOCKET (bits : Nat) : SOCKET := 2 ^ bits - 1

/-! ## Provider records -/

/-- A Windows `GUID`: a 32-bit word, two 16-bit words and eight bytes. -/
structure GUID where
  Data1 : Nat
  Data2 : Nat
  Data3 : Nat
  Data4 : List Nat
  deriving DecidableEq, Repr

/-- The `n` low bytes of `x`, least significant first. -/
def le_bytes : Nat → Nat → List Nat
  | 0, _ => []
  | n + 1, x => x % 256 :: le_bytes n (x / 256)

/-- The 16-byte memory image of a `GUID` (little-endian fields, no padding). -/
def GUID.bytes (g : GUID) : List Nat :=
  le_bytes 4 g.Data1 ++ le_bytes 2 g.Data2 ++ le_bytes 2 g.Data3 ++
    (List.range 8).map (fun k => g.Data4.getD k 0 % 256)

/-- The C library `memcmp` on two byte sequences, over the first `n` bytes. -/
def memcmp : List Nat → List Nat → Nat → Int
  | a :: as, b :: bs, n + 1 =>
    if a = b then memcmp as bs n else if a < b then -1 else 1
  | _, _, _ => 0

/-- The fields of `WSAPROTOCOL_INFOW` that `afd.c` reads. -/
structure WSAPROTOCOL_INFOW where
  ProviderId : GUID
  dwCatalogEntryId : Nat
  iAddressFamily : Int
  iSocketType : Int
  iProtocol : Int
  deriving DecidableEq, Repr

def _AFD_PROVIDER_GUID_LIST : List GUID :=
  [ -- MSAFD Tcpip [TCP+UDP+RAW / IP]
    ⟨0xe70f1aa0, 0xab8b, 0x11cf, [0x8c, 0xa3, 0x00, 0x80, 0x5f, 0x48, 0xa1, 0x92]⟩,
    -- MSAFD Tcpip [TCP+UDP+RAW / IPv6]
    ⟨0xf9eab0c0, 0x26d4, 0x11d0, [0xbb, 0xbf, 0x00, 0xaa, 0x00, 0x6c, 0x34, 0xe4]⟩,
    -- MSAFD RfComm [Bluetooth]
    ⟨0x9fc48064, 0x7298, 0x43e4, [0xb7, 0xbd, 0x18, 0x1f, 0x20, 0x89, 0x79, 0x2a]⟩,
    -- MSAFD Irda [IrDA]
    ⟨0x3972523d, 0x2af1, 0x11d1, [0xb6, 0x55, 0x00, 0x80, 0x5f, 0x36, 0x42, 0xcc]⟩ ]

/-- The size of a `GUID` in bytes, `sizeof info->ProviderId`. -/
def sizeof_GUID : Nat := 16

/-! ## `_afd_find_protocol_info` -/

/-- The inner loop of `_afd_find_protocol_info` (and the loop of `_afd_get_protocol_info`):
walks the allow-list and reports whether some entry compares equal under `memcmp`. -/
def _afd_guid_loop (id : GUID) : List GUID → Bool
  | [] => false
  | g :: rest =>
    if memcmp id.bytes g.bytes sizeof_GUID = 0 then true else _afd_guid_loop id rest

/-- The outer loop of `_afd_find_protocol_info`, from index `i` on; `infos` is the part of
the catalog that is still to be visited. The result is the index of the entry found together
with the entry itself (the pointer `&infos[i]`). -/
def _afd_find_protocol_info_loop (protocol_id : Int) :
    List WSAPROTOCOL_INFOW → Nat → Option (Nat × WSAPROTOCOL_INFOW)
  | [], _ => none
  | info :: rest, i =>
    -- Apply protocol id filter.
    if protocol_id ≠ _AFD_ANY_PROTOCOL ∧ protocol_id ≠ info.iProtocol then
      _afd_find_protocol_info_loop protocol_id rest (i + 1)
    -- Filter out non-MSAFD protocols.
    else if _afd_guid_loop info.ProviderId _AFD_PROVIDER_GUID_LIST then
      some (i, info)
    else
      _afd_find_protocol_info_loop protocol_id rest (i + 1)

/-- The function `_afd_find_protocol_info(infos, infos_count, protocol_id)`, where
`infos_count` is the length of `infos`; `none` is the `NULL` result. -/
def _afd_find_protocol_info (infos : List WSAPROTOCOL_INFOW) (protocol_id : Int) :
    Option (Nat × WSAPROTOCOL_INFOW) :=
  _afd_find_protocol_info_loop protocol_id infos 0

/-! ### Specification-side predicates -/

/-- The provider identity is byte-for-byte equal to one of the GUIDs of the allow-list. -/
def AllowListed (info : WSAPROTOCOL_INFOW) : Prop :=
  ∃ g ∈ _AFD_PROVIDER_GUID_LIST, info.ProviderId.bytes = g.bytes

/-- The protocol filter accepts the entry: the filter is "any" or equals `iProtocol`. -/
def ProtocolAccepted (protocol_id : Int) (info : WSAPROTOCOL_INFOW) : Prop :=
  protocol_id = _AFD_ANY_PROTOCOL ∨ protocol_id = info.iProtocol

/-- The entry satisfies both conditions of the matcher. -/
def Matches (protocol_id : Int) (info : WSAPROTOCOL_INFOW) : Prop :=
  AllowListed info ∧ ProtocolAccepted protocol_id info

/-- The entry `info` sits at index `i` of `infos` and is the first one that matches. -/
def FirstMatch (infos : List WSAPROTOCOL_INFOW) (protocol_id : Int)
    (i : Nat) (info : WSAPROTOCOL_INFOW) : Prop :=
  infos[i]? = some info ∧ Matches protocol_id info ∧
    ∀ k e, k < i → infos[k]? = some e → ¬ Matches protocol_id e

instance (info : WSAPROTOCOL_INFOW) : Decidable (AllowListed info) := by
  unfold AllowListed; infer_instance

instance (p : Int) (info : WSAPROTOCOL_INFOW) : Decidable (ProtocolAccepted p info) := by
  unfold ProtocolAccepted; infer_instance

instance (p : Int) (info : WSAPROTOCOL_INFOW) : Decidable (Matches p info) := by
  unfold Matches; infer_instance

/-! ## The world seen by the stateful functions -/

/-- The completion descriptor. `Internal` is the `Status` field of the `IO_STATUS_BLOCK`
that `afd_poll` overlays on `&overlapped->Internal`. -/
structure OVERLAPPED where
  Internal : NTSTATUS
  hEvent : HANDLE
  deriving DecidableEq, Repr

/-- One call into the operating system (or into a sibling module), with its arguments and,
where it has one, the value it returned. A pointer to the caller's descriptor is `some ov`,
the null pointer is `none`. -/
inductive Call where
  | CreateEventW (result : HANDLE)
  | NtDeviceIoControlFile (FileHandle Event : HANDLE) (ApcContext : Option OVERLAPPED)
      (IoControlCode : Nat) (buffer : Nat) (result : NTSTATUS)
  | WaitForSingleObject (hHandle : HANDLE) (dwMilliseconds : DWORD) (result : DWORD)
  | CloseHandle (hObject : HANDLE)
  | GetLastError (result : DWORD)
  | RtlNtStatusToDosError (Status : NTSTATUS) (result : DWORD)
  | WSASocketW (af type protocol : Int) (lpProtocolInfo : WSAPROTOCOL_INFOW)
      (g : Nat) (dwFlags : DWORD) (result : SOCKET)
  | SetHandleInformation (hObject : HANDLE) (dwMask dwFlags : DWORD) (result : Bool)
  | CreateIoCompletionPort (FileHandle ExistingCompletionPort : HANDLE)
      (CompletionKey NumberOfConcurrentThreads : Nat) (result : HANDLE)
  | closesocket (s : SOCKET)
  | getsockopt (s : SOCKET) (succeeded : Bool)
  | ws_get_base_socket (s : SOCKET) (result : SOCKET)
  deriving DecidableEq, Repr

/-- The part of the process state that `afd.c` touches through the operating system. -/
structure World where
  /-- The calling thread's last-error value. -/
  lastError : DWORD
  /-- The kernel objects (events, sockets) that are open. -/
  open_handles : List HANDLE
  /-- The calls made so far, oldest first. -/
  trace : List Call
  deriving DecidableEq, Repr

def World.call (w : World) (c : Call) : World :=
  { w with trace := w.trace ++ [c] }

/-- Modelled from the spec: the `return_error(value, [error])` macro of `error.h`, which is
not among the sources. With an error code the code is surfaced to the caller as the thread's
last error; without one the last error already set by the failing call is surfaced as it
is. -/
def return_error (value : Int) (error : Option DWORD) (w : World) : Int × World :=
  match error with
  | none => (value, w)
  | some e => (value, { w with lastError := e })

/-- The call `GetLastError()`. -/
def GetLastError (w : World) : DWORD × World :=
  (w.lastError, w.call (.GetLastError w.lastError))

/-- The calls `CloseHandle(h)` and `closesocket(s)` on an object of the caller: the object is released;
`clobber` is the last-error value the call leaves behind, if it touches it. -/
def release (c : Call) (clobber : Option DWORD) (h : HANDLE) (w : World) : World :=
  let w1 := w.call c
  { w1 with open_handles := w1.open_handles.erase h, lastError := clobber.getD w1.lastError }

/-! ## `afd_global_init` -/

/-- The function `afd_global_init()`. `ws_get_protocol_catalog` is the answer of the catalog
loader (`none` when it fails, that is `infos_count < 0`), `template` the current contents of
`_afd_driver_socket_template`. Returns the return value, the new template and the world.
The two calls `free(infos)` touch nothing of the state kept here. -/
def afd_global_init (ws_get_protocol_catalog : Option (List WSAPROTOCOL_INFOW))
    (template : WSAPROTOCOL_INFOW) (w : World) : Int × WSAPROTOCOL_INFOW × World :=
  -- Load the winsock catalog.
  match ws_get_protocol_catalog with
  | none => let r := return_error (-1) none w; (r.1, template, r.2)
  | some infos =>
    -- Preferentially we pick a UDP socket, otherwise try TCP or any other type.
    let afd_info :=
      match _afd_find_protocol_info infos IPPROTO_UDP with
      | some info => some info
      | none =>
        match _afd_find_protocol_info infos IPPROTO_TCP with
        | some info => some info
        | none => _afd_find_protocol_info infos _AFD_ANY_PROTOCOL
    match afd_info with
    | none =>
      -- No suitable protocol found.
      let r := return_error (-1) (some WSAENETDOWN) w; (r.1, template, r.2)
    | some (_, info) =>
      -- Copy found protocol information from the catalog to a static buffer.
      (0, info, w)

/-! ## `afd_create_driver_socket` -/

/-- The answers of the operating system to the calls of `afd_create_driver_socket`. -/
structure SocketScenario where
  /-- The socket returned by `WSASocketW` (`INVALID_SOCKET` on failure). -/
  WSASocketW : SOCKET
  WSASocketW_error : DWORD
  SetHandleInformation : Bool
  SetHandleInformation_error : DWORD
  /-- The handle returned by `CreateIoCompletionPort` (`NULL` on failure). -/
  CreateIoCompletionPort : HANDLE
  CreateIoCompletionPort_error : DWORD
  /-- The last-error value `closesocket` leaves behind, if it touches it. -/
  closesocket_error : Option DWORD

/-- What a call of `afd_create_driver_socket` leaves behind: the return value, the value
written through `driver_socket_out` (`none`: no write), and the world. -/
structure SocketResult where
  ret : Int
  driver_socket_out : Option SOCKET
  world : World
  deriving DecidableEq, Repr

/-- The `error:` label of `afd_create_driver_socket`. -/
def afd_create_driver_socket_error (os : SocketScenario) (socket : SOCKET) (w : World) :
    SocketResult :=
  let (error, w1) := GetLastError w
  let w2 := release (.closesocket socket) os.closesocket_error socket w1
  let r := return_error (-1) (some error) w2
  ⟨r.1, none, r.2⟩

/-- The function `afd_create_driver_socket(iocp, driver_socket_out)`; `template` is
`_afd_driver_socket_template`. -/
def afd_create_driver_socket (bits : Nat) (os : SocketScenario)
    (template : WSAPROTOCOL_INFOW) (w : World) (iocp : HANDLE) : SocketResult :=
  let socket := os.WSASocketW
  let w1 := w.call (.WSASocketW template.iAddressFamily template.iSocketType
    template.iProtocol template 0 WSA_FLAG_OVERLAPPED socket)
  if socket = INVALID_SOCKET bits then
    let r := return_error (-1) none { w1 with lastError := os.WSASocketW_error }
    ⟨r.1, none, r.2⟩
  else
    let w2 := { w1 with open_handles := socket :: w1.open_handles }
    let w3 := w2.call (.SetHandleInformation socket HANDLE_FLAG_INHERIT 0
      os.SetHandleInformation)
    if ¬ os.SetHandleInformation then
      afd_create_driver_socket_error os socket
        { w3 with lastError := os.SetHandleInformation_error }
    else
      let w4 := w3.call (.CreateIoCompletionPort socket iocp 0 0 os.CreateIoCompletionPort)
      if os.CreateIoCompletionPort = NULL then
        afd_create_driver_socket_error os socket
          { w4 with lastError := os.CreateIoCompletionPort_error }
      else
        ⟨0, some socket, w4⟩

/-! ## `afd_poll` -/

/-- The answers of the operating system to the calls of `afd_poll`. The two `_iosb` fields
say what the kernel writes into the `Status` field of the status block while the call named
is in progress (`none`: it does not write). -/
structure PollScenario where
  /-- The handle returned by `CreateEventW` (`NULL` on failure). -/
  CreateEventW : HANDLE
  CreateEventW_error : DWORD
  /-- The status returned by `NtDeviceIoControlFile`. -/
  NtDeviceIoControlFile : NTSTATUS
  NtDeviceIoControlFile_iosb : Option NTSTATUS
  /-- The value returned by `WaitForSingleObject`. -/
  WaitForSingleObject : DWORD
  WaitForSingleObject_error : DWORD
  WaitForSingleObject_iosb : Option NTSTATUS
  /-- The last-error value `CloseHandle` leaves behind, if it touches it. -/
  CloseHandle_error : Option DWORD
  RtlNtStatusToDosError : NTSTATUS → DWORD

/-- What a call of `afd_poll` leaves behind: the return value, the world, and the caller's
completion descriptor, whose status block the call and the kernel have written. -/
structure PollResult where
  ret : Int
  world : World
  overlapped : Option OVERLAPPED

/-- The cast `(uintptr_t) x`. -/
def uintptr (bits : Nat) (x : Nat) : Nat := x % 2 ^ bits

/-- The operator `~` on a `uintptr_t`. -/
def uintptr_not (bits : Nat) (x : Nat) : Nat := 2 ^ bits - 1 - uintptr bits x

/-- Lines 145 to 153 of `afd_poll`: the signal handle and the completion context that are
derived from `overlapped->hEvent`. -/
def afd_poll_event (bits : Nat) (overlapped : OVERLAPPED) : HANDLE × Option OVERLAPPED :=
  let event := overlapped.hEvent
  -- Do not report iocp completion if hEvent is tagged.
  if uintptr bits event &&& 1 ≠ 0 then
    (uintptr bits event &&& uintptr_not bits 1, none)
  else
    (event, some overlapped)

/-- The call `NtDeviceIoControlFile(driver_socket, event, NULL, apc_context, iosb_ptr,
IOCTL_AFD_POLL, poll_info, ...)` of `afd_poll`: returns the status, the `Status` field of
the status block after the call (it holds `iosb` before it) and the world. -/
def afd_poll_submit (os : PollScenario) (w : World) (driver_socket : SOCKET)
    (event : HANDLE) (apc_context : Option OVERLAPPED) (iosb : NTSTATUS) (poll_info : Nat) :
    NTSTATUS × NTSTATUS × World :=
  (os.NtDeviceIoControlFile, os.NtDeviceIoControlFile_iosb.getD iosb,
    w.call (.NtDeviceIoControlFile driver_socket event apc_context IOCTL_AFD_POLL poll_info
      os.NtDeviceIoControlFile))

/-- Lines 195 to 200 of `afd_poll`: the translation of the final status. -/
def afd_poll_translate (os : PollScenario) (status : NTSTATUS) (w : World) : Int × World :=
  if status = STATUS_SUCCESS then
    (0, w)
  else if status = STATUS_PENDING then
    return_error (-1) (some ERROR_IO_PENDING) w
  else
    let error := os.RtlNtStatusToDosError status
    return_error (-1) (some error) (w.call (.RtlNtStatusToDosError status error))

/-- The function `afd_poll(driver_socket, poll_info, overlapped)`. The poll request is an
opaque payload, identified by `poll_info`. -/
def afd_poll (bits : Nat) (os : PollScenario) (w : World) (driver_socket : SOCKET)
    (poll_info : Nat) (overlapped : Option OVERLAPPED) : PollResult :=
  match overlapped with
  | some ov =>
    -- Overlapped operation.
    let (event, apc_context) := afd_poll_event bits ov
    let iosb := STATUS_PENDING
    let (status, iosb, w1) :=
      afd_poll_submit os w driver_socket event apc_context iosb poll_info
    let r := afd_poll_translate os status w1
    ⟨r.1, r.2, some { ov with Internal := iosb }⟩
  | none =>
    -- Blocking operation.
    let event := os.CreateEventW
    let w1 := w.call (.CreateEventW event)
    if event = NULL then
      let r := return_error (-1) none { w1 with lastError := os.CreateEventW_error }
      ⟨r.1, r.2, none⟩
    else
      let w2 := { w1 with open_handles := event :: w1.open_handles }
      let apc_context : Option OVERLAPPED := none
      let iosb := STATUS_PENDING
      let (status, iosb, w3) :=
        afd_poll_submit os w2 driver_socket event apc_context iosb poll_info
      -- If this is a blocking operation, wait for the event to become signaled, and then
      -- grab the real status from the io status block.
      if status = STATUS_PENDING then
        let r := os.WaitForSingleObject
        let w4 := w3.call (.WaitForSingleObject event INFINITE r)
        if r = WAIT_FAILED then
          let (error, w5) := GetLastError { w4 with lastError := os.WaitForSingleObject_error }
          let w6 := release (.CloseHandle event) os.CloseHandle_error event w5
          let res := return_error (-1) (some error) w6
          ⟨res.1, res.2, none⟩
        else
          let iosb := os.WaitForSingleObject_iosb.getD iosb
          let status := iosb
          let w5 := release (.CloseHandle event) os.CloseHandle_error event w4
          let res := afd_poll_translate os status w5
          ⟨res.1, res.2, none⟩
      else
        let w4 := release (.CloseHandle event) os.CloseHandle_error event w3
        let res := afd_poll_translate os status w4
        ⟨res.1, res.2, none⟩

/-! ## `afd_get_protocol_info` -/

/-- The answers of the operating system, and of `ws_get_base_socket`, to the calls of
`afd_get_protocol_info`. -/
structure ResolveScenario where
  /-- The outcome of `getsockopt(s, SOL_SOCKET, SO_PROTOCOL_INFOW, ...)`: the record written
  to the buffer, or the error code left as the thread's last error. -/
  getsockopt : SOCKET → Except DWORD WSAPROTOCOL_INFOW
  /-- The socket returned by `ws_get_base_socket(s)`. -/
  ws_get_base_socket : SOCKET → SOCKET
  /-- The last-error value `ws_get_base_socket(s)` leaves behind, if it touches it. -/
  ws_get_base_socket_error : SOCKET → Option DWORD

/-- The function `_afd_get_protocol_info(socket, protocol_info)`: returns the return
value, the buffer `*protocol_info` (it holds `protocol_info` before the call) and the
world. -/
def _afd_get_protocol_info (os : ResolveScenario) (w : World) (socket : SOCKET)
    (protocol_info : Option WSAPROTOCOL_INFOW) : Int × Option WSAPROTOCOL_INFOW × World :=
  match os.getsockopt socket with
  | .error e =>
    let r := return_error (-1) none
      { w.call (.getsockopt socket false) with lastError := e }
    (r.1, protocol_info, r.2)
  | .ok info =>
    let w1 := w.call (.getsockopt socket true)
    if _afd_guid_loop info.ProviderId _AFD_PROVIDER_GUID_LIST then
      (0, some info, w1)
    else
      -- Socket doesn't appear to be controlled by MSAFD.
      let r := return_error (-1) (some ERROR_DEVICE_FEATURE_NOT_SUPPORTED) w1
      (r.1, some info, r.2)

/-- What a call of `afd_get_protocol_info` leaves behind: the return value, the value
written through `afd_socket_out` (`none`: no write), the contents of the buffer
`*protocol_info` (`none`: never written), and the world. -/
structure ResolveResult where
  ret : Int
  afd_socket_out : Option SOCKET
  protocol_info : Option WSAPROTOCOL_INFOW
  world : World
  deriving DecidableEq, Repr

/-- The function `afd_get_protocol_info(socket, afd_socket_out, protocol_info)`. -/
def afd_get_protocol_info (bits : Nat) (os : ResolveScenario) (w : World)
    (socket : SOCKET) : ResolveResult :=
  -- Try to get protocol information, assuming that the given socket is an AFD socket.
  let afd_socket := socket
  let (r, protocol_info, w1) := _afd_get_protocol_info os w afd_socket none
  if r < 0 then
    -- If getting protocol information failed, it might be due to the socket not being an
    -- AFD socket. If so, attempt to fetch the underlying base socket, then try again.
    let (error, w2) := GetLastError w1
    if error ≠ ERROR_DEVICE_FEATURE_NOT_SUPPORTED then
      ⟨-1, none, protocol_info, w2⟩
    else
      let afd_socket := os.ws_get_base_socket socket
      let w3 := w2.call (.ws_get_base_socket socket afd_socket)
      let w4 := { w3 with lastError := (os.ws_get_base_socket_error socket).getD w3.lastError }
      if afd_socket = INVALID_SOCKET bits ∨ afd_socket = socket then
        let res := return_error (-1) (some error) w4
        ⟨res.1, none, protocol_info, res.2⟩
      else
        let (r, protocol_info, w5) := _afd_get_protocol_info os w4 afd_socket protocol_info
        if r < 0 then
          ⟨-1, none, protocol_info, w5⟩
        else
          ⟨r, some afd_socket, protocol_info, w5⟩
  else
    ⟨r, some afd_socket, protocol_info, w1⟩

/-! ### Specification-side notions for `afd_poll` -/

/-- The `Status` field of the local status block after the wait: `afd_poll` stored
`STATUS_PENDING` in it, then the kernel wrote it during the submission, during the wait,
or not at all. -/
def iosb_after_wait (os : PollScenario) : NTSTATUS :=
  os.WaitForSingleObject_iosb.getD (os.NtDeviceIoControlFile_iosb.getD STATUS_PENDING)

/-- The calls the status translation makes for a final status. -/
def translation_calls (os : PollScenario) (status : NTSTATUS) : List Call :=
  if status = STATUS_SUCCESS ∨ status = STATUS_PENDING then []
  else [Call.RtlNtStatusToDosError status (os.RtlNtStatusToDosError status)]

/-- The calls a call added to the trace of the world `w` it started from. -/
def new_calls (w after : World) : List Call :=
  after.trace.drop w.trace.length

/-- The world in which the synchronous `afd_poll` translates the final status: the calls
`calls` were made, the event is closed again. -/
def sync_world (os : PollScenario) (w : World) (calls : List Call) : World :=
  { lastError := os.CloseHandle_error.getD w.lastError
    open_handles := w.open_handles
    trace := w.trace ++ calls }

/-! ### Specification-side notions for `afd_get_protocol_info` -/

/-- The provider-info query on `s` succeeds with the record `info`, whose identity is in the
allow-list. -/
def QueryOk (os : ResolveScenario) (s : SOCKET) (info : WSAPROTOCOL_INFOW) : Prop :=
  os.getsockopt s = .ok info ∧ AllowListed info

/-- The provider-info query on `s` fails with the error code `e`: either `getsockopt` fails
with `e`, or it answers with an identity outside the allow-list and `e` is
`ERROR_DEVICE_FEATURE_NOT_SUPPORTED`. -/
def QueryFailsWith (os : ResolveScenario) (s : SOCKET) (e : DWORD) : Prop :=
  os.getsockopt s = .error e ∨
    ∃ info, os.getsockopt s = .ok info ∧ ¬ AllowListed info ∧
      e = ERROR_DEVICE_FEATURE_NOT_SUPPORTED

/-! ## Sample inputs -/

/-- The MSAFD Tcpip provider over IPv4, UDP. -/
def sample_udp : WSAPROTOCOL_INFOW :=
  ⟨⟨0xe70f1aa0, 0xab8b, 0x11cf, [0x8c, 0xa3, 0x00, 0x80, 0x5f, 0x48, 0xa1, 0x92]⟩,
    1002, 2, 2, 17⟩

/-- The MSAFD Tcpip provider over IPv4, TCP. -/
def sample_tcp : WSAPROTOCOL_INFOW :=
  ⟨⟨0xe70f1aa0, 0xab8b, 0x11cf, [0x8c, 0xa3, 0x00, 0x80, 0x5f, 0x48, 0xa1, 0x92]⟩,
    1001, 2, 1, 6⟩

/-- A layered provider: its identity differs from the first allow-list entry in one byte. -/
def sample_lsp : WSAPROTOCOL_INFOW :=
  ⟨⟨0xe70f1aa0, 0xab8b, 0x11cf, [0x8c, 0xa3, 0x00, 0x80, 0x5f, 0x48, 0xa1, 0x93]⟩,
    1010, 2, 1, 6⟩

def sample_catalog : List WSAPROTOCOL_INFOW := [sample_lsp, sample_tcp, sample_udp]

def sample_world : World := ⟨0, [], []⟩

/-- A kernel that accepts the poll and completes it with success during the wait. -/
def sample_poll_os : PollScenario where
  CreateEventW := 500
  CreateEventW_error := 8
  NtDeviceIoControlFile := STATUS_PENDING
  NtDeviceIoControlFile_iosb := none
  WaitForSingleObject := 0
  WaitForSingleObject_error := 6
  WaitForSingleObject_iosb := some STATUS_SUCCESS
  CloseHandle_error := none
  RtlNtStatusToDosError := fun s =>
    if s = STATUS_SUCCESS then 0 else if s = STATUS_PENDING then ERROR_IO_PENDING else 317

/-- Socket creation succeeds, the association with the completion port fails. -/
def sample_socket_os : SocketScenario where
  WSASocketW := 300
  WSASocketW_error := 10024
  SetHandleInformation := true
  SetHandleInformation_error := 6
  CreateIoCompletionPort := NULL
  CreateIoCompletionPort_error := 87
  closesocket_error := some 10038

/-- Socket 100 belongs to a layered provider over the AFD socket 200; socket 7 is not a
socket. -/
def sample_resolve_os : ResolveScenario where
  getsockopt := fun s =>
    if s = 100 then .ok sample_lsp else if s = 200 then .ok sample_tcp else .error 10038
  ws_get_base_socket := fun s => if s = 100 then 200 else s
  ws_get_base_socket_error := fun _ => some 10045

/-! ## Lemmas on the matcher -/

theorem le_bytes_length (n x : Nat) : (le_bytes n x).length = n := by
  induction n generalizing x with
  | zero => rfl
  | succ n ih => simp [le_bytes, ih]

theorem GUID.bytes_length (g : GUID) : g.bytes.length = 16 := by
  simp [GUID.bytes, le_bytes_length]

theorem memcmp_eq_zero_iff (a b : List Nat) (n : Nat)
    (ha : a.length = n) (hb : b.length = n) : memcmp a b n = 0 ↔ a = b := by
  induction n generalizing a b with
  | zero =>
    have h1 : a = [] := List.length_eq_zero.mp ha
    have h2 : b = [] := List.length_eq_zero.mp hb
    subst h1; subst h2
    simp [memcmp]
  | succ n ih =>
    match a, b, ha, hb with
    | x :: xs, y :: ys, ha, hb =>
      simp only [List.length_cons, Nat.add_right_cancel_iff] at ha hb
      by_cases hxy : x = y
      · subst hxy
        simp [memcmp, ih xs ys ha hb]
      · by_cases hlt : x < y <;> simp [memcmp, hxy, hlt]

theorem memcmp_guid (a b : GUID) :
    memcmp a.bytes b.bytes sizeof_GUID = 0 ↔ a.bytes = b.bytes :=
  memcmp_eq_zero_iff _ _ _ a.bytes_length b.bytes_length

theorem _afd_guid_loop_iff (id : GUID) (l : List GUID) :
    _afd_guid_loop id l = true ↔ ∃ g ∈ l, id.bytes = g.bytes := by
  induction l with
  | nil => simp [_afd_guid_loop]
  | cons g rest ih =>
    unfold _afd_guid_loop
    by_cases h : memcmp id.bytes g.bytes sizeof_GUID = 0
    · simp only [h, if_true, true_iff]
      exact ⟨g, List.mem_cons_self _ _, (memcmp_guid id g).mp h⟩
    · have hne : id.bytes ≠ g.bytes := fun e => h ((memcmp_guid id g).mpr e)
      simp only [h, if_false, ih, List.mem_cons, exists_eq_or_imp, hne, false_or]

theorem allowListed_iff (info : WSAPROTOCOL_INFOW) :
    _afd_guid_loop info.ProviderId _AFD_PROVIDER_GUID_LIST = true ↔ AllowListed info :=
  _afd_guid_loop_iff _ _

theorem matches_iff_step (p : Int) (info : WSAPROTOCOL_INFOW) :
    Matches p info ↔
      (¬ (p ≠ _AFD_ANY_PROTOCOL ∧ p ≠ info.iProtocol) ∧
        _afd_guid_loop info.ProviderId _AFD_PROVIDER_GUID_LIST = true) := by
  rw [allowListed_iff, Matches, ProtocolAccepted]
  constructor
  · rintro ⟨ha, hp⟩
    refine ⟨?_, ha⟩
    rintro ⟨h1, h2⟩
    rcases hp with hp | hp
    · exact h1 hp
    · exact h2 hp
  · rintro ⟨hp, ha⟩
    refine ⟨ha, ?_⟩
    by_cases h1 : p = _AFD_ANY_PROTOCOL
    · exact Or.inl h1
    · by_cases h2 : p = info.iProtocol
      · exact Or.inr h2
      · exact absurd ⟨h1, h2⟩ hp

theorem find_loop_cons_match (p : Int) (a : WSAPROTOCOL_INFOW)
    (rest : List WSAPROTOCOL_INFOW) (i : Nat) (h : Matches p a) :
    _afd_find_protocol_info_loop p (a :: rest) i = some (i, a) := by
  obtain ⟨h1, h2⟩ := (matches_iff_step p a).mp h
  simp only [_afd_find_protocol_info_loop, h1, h2, if_false, if_true]

theorem find_loop_cons_nomatch (p : Int) (a : WSAPROTOCOL_INFOW)
    (rest : List WSAPROTOCOL_INFOW) (i : Nat) (h : ¬ Matches p a) :
    _afd_find_protocol_info_loop p (a :: rest) i =
      _afd_find_protocol_info_loop p rest (i + 1) := by
  rw [matches_iff_step] at h
  rw [_afd_find_protocol_info_loop]
  by_cases h1 : p ≠ _AFD_ANY_PROTOCOL ∧ p ≠ a.iProtocol
  · rw [if_pos h1]
  · rw [if_neg h1]
    have h2 : ¬ _afd_guid_loop a.ProviderId _AFD_PROVIDER_GUID_LIST = true :=
      fun h2 => h ⟨h1, h2⟩
    rw [if_neg h2]

theorem firstMatch_zero (p : Int) (a info : WSAPROTOCOL_INFOW)
    (rest : List WSAPROTOCOL_INFOW) :
    FirstMatch (a :: rest) p 0 info ↔ a = info ∧ Matches p info := by
  unfold FirstMatch
  constructor
  · rintro ⟨h1, h2, _⟩
    exact ⟨by simpa using h1, h2⟩
  · rintro ⟨h1, h2⟩
    exact ⟨by simp [h1], h2, fun k e hk => absurd hk (Nat.not_lt_zero k)⟩

theorem firstMatch_succ (p : Int) (a info : WSAPROTOCOL_INFOW)
    (rest : List WSAPROTOCOL_INFOW) (k : Nat) :
    FirstMatch (a :: rest) p (k + 1) info ↔ ¬ Matches p a ∧ FirstMatch rest p k info := by
  unfold FirstMatch
  constructor
  · rintro ⟨h1, h2, h3⟩
    refine ⟨h3 0 a (Nat.succ_pos k) (by simp), by simpa using h1, h2, ?_⟩
    intro m e hm he
    exact h3 (m + 1) e (Nat.succ_lt_succ hm) (by simpa using he)
  · rintro ⟨h0, h1, h2, h3⟩
    refine ⟨by simpa using h1, h2, ?_⟩
    intro m e hm he
    cases m with
    | zero =>
      have : a = e := by simpa using he
      exact this ▸ h0
    | succ m => exact h3 m e (Nat.lt_of_succ_lt_succ hm) (by simpa using he)

theorem find_loop_some_iff (p : Int) (l : List WSAPROTOCOL_INFOW) (i j : Nat)
    (info : WSAPROTOCOL_INFOW) :
    _afd_find_protocol_info_loop p l i = some (j, info) ↔
      ∃ k, j = i + k ∧ FirstMatch l p k info := by
  induction l generalizing i with
  | nil =>
    simp [_afd_find_protocol_info_loop, FirstMatch]
  | cons a rest ih =>
    by_cases h : Matches p a
    · rw [find_loop_cons_match p a rest i h]
      constructor
      · intro e
        simp only [Option.some.injEq, Prod.mk.injEq] at e
        obtain ⟨e1, e2⟩ := e
        subst e1; subst e2
        exact ⟨0, rfl, (firstMatch_zero p a a rest).mpr ⟨rfl, h⟩⟩
      · rintro ⟨k, hj, hk⟩
        cases k with
        | zero =>
          obtain ⟨e, _⟩ := (firstMatch_zero p a info rest).mp hk
          subst e
          simp [hj]
        | succ k => exact absurd h ((firstMatch_succ p a info rest k).mp hk).1
    · rw [find_loop_cons_nomatch p a rest i h, ih (i + 1)]
      constructor
      · rintro ⟨k, hj, hk⟩
        exact ⟨k + 1, by omega, (firstMatch_succ p a info rest k).mpr ⟨h, hk⟩⟩
      · rintro ⟨k, hj, hk⟩
        cases k with
        | zero =>
          obtain ⟨e, hm⟩ := (firstMatch_zero p a info rest).mp hk
          exact absurd (e ▸ hm) h
        | succ k =>
          exact ⟨k, by omega, ((firstMatch_succ p a info rest k).mp hk).2⟩

theorem find_loop_none_iff (p : Int) (l : List WSAPROTOCOL_INFOW) (i : Nat) :
    _afd_find_protocol_info_loop p l i = none ↔ ∀ e ∈ l, ¬ Matches p e := by
  induction l generalizing i with
  | nil => simp [_afd_find_protocol_info_loop]
  | cons a rest ih =>
    by_cases h : Matches p a
    · rw [find_loop_cons_match p a rest i h]
      simp [h]
    · rw [find_loop_cons_nomatch p a rest i h, ih (i + 1)]
      simp [h]

theorem find_some_iff (infos : List WSAPROTOCOL_INFOW) (p : Int) (i : Nat)
    (info : WSAPROTOCOL_INFOW) :
    _afd_find_protocol_info infos p = some (i, info) ↔ FirstMatch infos p i info := by
  unfold _afd_find_protocol_info
  rw [find_loop_some_iff]
  constructor
  · rintro ⟨k, hk, h⟩
    have : i = k := by omega
    exact this ▸ h
  · intro h
    exact ⟨i, by omega, h⟩

theorem find_none_iff (infos : List WSAPROTOCOL_INFOW) (p : Int) :
    _afd_find_protocol_info infos p = none ↔ ∀ e ∈ infos, ¬ Matches p e :=
  find_loop_none_iff p infos 0

theorem matches_any_iff (info : WSAPROTOCOL_INFOW) :
    Matches _AFD_ANY_PROTOCOL info ↔ AllowListed info := by
  simp [Matches, ProtocolAccepted]

/-! ## Lemmas on `afd_global_init` -/

theorem global_init_udp (infos : List WSAPROTOCOL_INFOW) (t : WSAPROTOCOL_INFOW) (w : World)
    (i : Nat) (info : WSAPROTOCOL_INFOW)
    (h : _afd_find_protocol_info infos IPPROTO_UDP = some (i, info)) :
    afd_global_init (some infos) t w = (0, info, w) := by
  simp only [afd_global_init, h]

theorem global_init_tcp (infos : List WSAPROTOCOL_INFOW) (t : WSAPROTOCOL_INFOW) (w : World)
    (i : Nat) (info : WSAPROTOCOL_INFOW)
    (hu : _afd_find_protocol_info infos IPPROTO_UDP = none)
    (h : _afd_find_protocol_info infos IPPROTO_TCP = some (i, info)) :
    afd_global_init (some infos) t w = (0, info, w) := by
  simp only [afd_global_init, hu, h]

theorem global_init_any (infos : List WSAPROTOCOL_INFOW) (t : WSAPROTOCOL_INFOW) (w : World)
    (i : Nat) (info : WSAPROTOCOL_INFOW)
    (hu : _afd_find_protocol_info infos IPPROTO_UDP = none)
    (ht : _afd_find_protocol_info infos IPPROTO_TCP = none)
    (h : _afd_find_protocol_info infos _AFD_ANY_PROTOCOL = some (i, info)) :
    afd_global_init (some infos) t w = (0, info, w) := by
  simp only [afd_global_init, hu, ht, h]

theorem global_init_none (infos : List WSAPROTOCOL_INFOW) (t : WSAPROTOCOL_INFOW) (w : World)
    (hu : _afd_find_protocol_info infos IPPROTO_UDP = none)
    (ht : _afd_find_protocol_info infos IPPROTO_TCP = none)
    (h : _afd_find_protocol_info infos _AFD_ANY_PROTOCOL = none) :
    afd_global_init (some infos) t w = (-1, t, { w with lastError := WSAENETDOWN }) := by
  simp only [afd_global_init, hu, ht, h, return_error]

theorem find_none_of_not_allowListed (infos : List WSAPROTOCOL_INFOW) (p : Int)
    (h : ∀ e ∈ infos, ¬ AllowListed e) : _afd_find_protocol_info infos p = none :=
  (find_none_iff infos p).mpr fun e he hm => h e he hm.1

theorem find_any_some_of_allowListed (infos : List WSAPROTOCOL_INFOW)
    (h : ∃ e ∈ infos, AllowListed e) :
    ∃ i info, _afd_find_protocol_info infos _AFD_ANY_PROTOCOL = some (i, info) := by
  obtain ⟨e, he, ha⟩ := h
  cases hf : _afd_find_protocol_info infos _AFD_ANY_PROTOCOL with
  | none => exact absurd ((matches_any_iff e).mpr ha) ((find_none_iff infos _).mp hf e he)
  | some r => exact ⟨r.1, r.2, rfl⟩

theorem global_init_ret_of_allowListed (infos : List WSAPROTOCOL_INFOW)
    (t : WSAPROTOCOL_INFOW) (w : World) (h : ∃ e ∈ infos, AllowListed e) :
    (afd_global_init (some infos) t w).1 = 0 := by
  obtain ⟨i, info, ha⟩ := find_any_some_of_allowListed infos h
  cases hu : _afd_find_protocol_info infos IPPROTO_UDP with
  | some r => rw [global_init_udp infos t w r.1 r.2 hu]
  | none =>
    cases ht : _afd_find_protocol_info infos IPPROTO_TCP with
    | some r => rw [global_init_tcp infos t w r.1 r.2 hu ht]
    | none => rw [global_init_any infos t w i info hu ht ha]

theorem find_some_of_mem (infos : List WSAPROTOCOL_INFOW) (p : Int) (e : WSAPROTOCOL_INFOW)
    (he : e ∈ infos) (hm : Matches p e) :
    ∃ i info, _afd_find_protocol_info infos p = some (i, info) := by
  cases hf : _afd_find_protocol_info infos p with
  | none => exact absurd hm ((find_none_iff infos p).mp hf e he)
  | some r => exact ⟨r.1, r.2, rfl⟩

/-! ## Lemmas on the low-bit convention -/

theorem testBit_one_eq (i : Nat) : Nat.testBit 1 i = decide (i = 0) := by
  cases i with
  | zero => rfl
  | succ n =>
    rw [Nat.testBit_eq_false_of_lt (Nat.one_lt_two_pow (Nat.succ_ne_zero n))]
    simp

theorem testBit_mask (bits i : Nat) (hb : 0 < bits) :
    (2 ^ bits - 1 - 1).testBit i = (decide (i < bits) && !decide (i = 0)) := by
  have h2 : (2:Nat) ^ bits - 1 - 1 = 2 ^ bits - (1 + 1) := by omega
  have h1 : (1:Nat) < 2 ^ bits := Nat.one_lt_two_pow (Nat.pos_iff_ne_zero.mp hb)
  rw [h2, Nat.testBit_two_pow_sub_succ h1, testBit_one_eq]

theorem testBit_of_lt (bits e i : Nat) (he : e < 2 ^ bits) (hb : e.testBit i = true) :
    i < bits := by
  by_contra hge
  have : e < 2 ^ i :=
    lt_of_lt_of_le he (Nat.pow_le_pow_right (by decide) (Nat.le_of_not_lt hge))
  rw [Nat.testBit_eq_false_of_lt this] at hb
  exact absurd hb (by decide)

theorem and_mask_even (bits e : Nat) (hb : 0 < bits) (he : e < 2 ^ bits) (hev : e % 2 = 0) :
    e &&& (2 ^ bits - 1 - 1) = e := by
  apply Nat.eq_of_testBit_eq
  intro i
  rw [Nat.testBit_and, testBit_mask bits i hb]
  cases hbit : e.testBit i with
  | false => simp
  | true =>
    have hi : i < bits := testBit_of_lt bits e i he hbit
    have hi0 : i ≠ 0 := by
      rintro rfl
      rw [Nat.testBit_zero] at hbit
      simp [hev] at hbit
    simp [hi, hi0]

theorem or_one_and_mask (bits h : Nat) (hb : 0 < bits) (hh : h < 2 ^ bits) (hev : h % 2 = 0) :
    (h ||| 1) &&& (2 ^ bits - 1 - 1) = h := by
  apply Nat.eq_of_testBit_eq
  intro i
  rw [Nat.testBit_and, Nat.testBit_or, testBit_mask bits i hb, testBit_one_eq]
  cases i with
  | zero => simp [Nat.testBit_zero, hev]
  | succ n =>
    cases hbit : h.testBit (n + 1) with
    | false => simp
    | true => simp [testBit_of_lt bits h (n + 1) hh hbit]

theorem or_one_lt (bits h : Nat) (hb : 0 < bits) (hh : h < 2 ^ bits) : h ||| 1 < 2 ^ bits :=
  Nat.or_lt_two_pow hh (Nat.one_lt_two_pow (Nat.pos_iff_ne_zero.mp hb))

theorem or_one_mod_two (h : Nat) : (h ||| 1) % 2 = 1 :=
  Nat.or_mod_two_eq_one.mpr (Or.inr rfl)

theorem uintptr_of_lt (bits x : Nat) (h : x < 2 ^ bits) : uintptr bits x = x :=
  Nat.mod_eq_of_lt h

theorem uintptr_not_one (bits : Nat) (hb : 0 < bits) : uintptr_not bits 1 = 2 ^ bits - 1 - 1 := by
  unfold uintptr_not
  rw [uintptr_of_lt bits 1 (Nat.one_lt_two_pow (Nat.pos_iff_ne_zero.mp hb))]

theorem afd_poll_event_tagged (bits : Nat) (ov : OVERLAPPED) (he : ov.hEvent < 2 ^ bits)
    (hodd : ov.hEvent % 2 = 1) :
    afd_poll_event bits ov = (ov.hEvent &&& uintptr_not bits 1, none) := by
  simp [afd_poll_event, uintptr_of_lt bits _ he, hodd]

theorem afd_poll_event_untagged (bits : Nat) (ov : OVERLAPPED) (he : ov.hEvent < 2 ^ bits)
    (hev : ov.hEvent % 2 = 0) :
    afd_poll_event bits ov = (ov.hEvent, some ov) := by
  simp [afd_poll_event, uintptr_of_lt bits _ he, hev]

/-! ## Lemmas on `afd_poll` -/

theorem translate_success (os : PollScenario) (w : World) :
    afd_poll_translate os STATUS_SUCCESS w = (0, w) := by
  simp [afd_poll_translate]

theorem translate_pending (os : PollScenario) (w : World) :
    afd_poll_translate os STATUS_PENDING w = (-1, { w with lastError := ERROR_IO_PENDING }) := by
  simp [afd_poll_translate, return_error, STATUS_PENDING, STATUS_SUCCESS]

theorem translate_other (os : PollScenario) (w : World) (s : NTSTATUS)
    (h1 : s ≠ STATUS_SUCCESS) (h2 : s ≠ STATUS_PENDING) :
    afd_poll_translate os s w =
      (-1, { w with
        lastError := os.RtlNtStatusToDosError s
        trace := w.trace ++ [.RtlNtStatusToDosError s (os.RtlNtStatusToDosError s)] }) := by
  simp [afd_poll_translate, return_error, h1, h2, World.call]

theorem translate_open_handles (os : PollScenario) (w : World) (s : NTSTATUS) :
    (afd_poll_translate os s w).2.open_handles = w.open_handles := by
  unfold afd_poll_translate return_error World.call
  split_ifs <;> rfl

theorem afd_poll_async (bits : Nat) (os : PollScenario) (w : World) (ds : SOCKET) (pi : Nat)
    (ov : OVERLAPPED) :
    afd_poll bits os w ds pi (some ov) =
      ⟨(afd_poll_translate os os.NtDeviceIoControlFile
          (w.call (.NtDeviceIoControlFile ds (afd_poll_event bits ov).1
            (afd_poll_event bits ov).2 IOCTL_AFD_POLL pi os.NtDeviceIoControlFile))).1,
        (afd_poll_translate os os.NtDeviceIoControlFile
          (w.call (.NtDeviceIoControlFile ds (afd_poll_event bits ov).1
            (afd_poll_event bits ov).2 IOCTL_AFD_POLL pi os.NtDeviceIoControlFile))).2,
        some { ov with Internal := os.NtDeviceIoControlFile_iosb.getD STATUS_PENDING }⟩ := by
  rfl

theorem afd_poll_async_trace (bits : Nat) (os : PollScenario) (w : World) (ds : SOCKET)
    (pi : Nat) (ov : OVERLAPPED) :
    (afd_poll bits os w ds pi (some ov)).world.trace =
      w.trace ++
        Call.NtDeviceIoControlFile ds (afd_poll_event bits ov).1 (afd_poll_event bits ov).2
          IOCTL_AFD_POLL pi os.NtDeviceIoControlFile ::
        (if os.NtDeviceIoControlFile = STATUS_SUCCESS ∨
            os.NtDeviceIoControlFile = STATUS_PENDING then []
          else [Call.RtlNtStatusToDosError os.NtDeviceIoControlFile
            (os.RtlNtStatusToDosError os.NtDeviceIoControlFile)]) := by
  rw [afd_poll_async]
  by_cases h1 : os.NtDeviceIoControlFile = STATUS_SUCCESS
  · rw [h1, translate_success]
    simp [World.call]
  · by_cases h2 : os.NtDeviceIoControlFile = STATUS_PENDING
    · rw [h2, translate_pending]
      simp [World.call]
    · rw [translate_other os _ _ h1 h2]
      simp [World.call, h1, h2]

theorem translate_trace (os : PollScenario) (w : World) (s : NTSTATUS) :
    (afd_poll_translate os s w).2.trace = w.trace ++ translation_calls os s := by
  by_cases h1 : s = STATUS_SUCCESS
  · subst h1
    simp [translate_success, translation_calls]
  · by_cases h2 : s = STATUS_PENDING
    · subst h2
      simp [translate_pending, translation_calls]
    · simp [translate_other os w s h1 h2, translation_calls, h1, h2]

theorem afd_poll_sync_create_failed (bits : Nat) (os : PollScenario) (w : World)
    (ds : SOCKET) (pi : Nat) (hc : os.CreateEventW = NULL) :
    afd_poll bits os w ds pi none =
      ⟨-1, { w with
        lastError := os.CreateEventW_error
        trace := w.trace ++ [.CreateEventW NULL] }, none⟩ := by
  simp [afd_poll, hc, return_error, World.call]

theorem afd_poll_sync_immediate (bits : Nat) (os : PollScenario) (w : World)
    (ds : SOCKET) (pi : Nat) (hc : os.CreateEventW ≠ NULL)
    (hs : os.NtDeviceIoControlFile ≠ STATUS_PENDING) :
    afd_poll bits os w ds pi none =
      ⟨(afd_poll_translate os os.NtDeviceIoControlFile (sync_world os w
          [.CreateEventW os.CreateEventW,
            .NtDeviceIoControlFile ds os.CreateEventW none IOCTL_AFD_POLL pi
              os.NtDeviceIoControlFile,
            .CloseHandle os.CreateEventW])).1,
        (afd_poll_translate os os.NtDeviceIoControlFile (sync_world os w
          [.CreateEventW os.CreateEventW,
            .NtDeviceIoControlFile ds os.CreateEventW none IOCTL_AFD_POLL pi
              os.NtDeviceIoControlFile,
            .CloseHandle os.CreateEventW])).2, none⟩ := by
  simp [afd_poll, hc, hs, afd_poll_submit, release, World.call, sync_world]

theorem afd_poll_sync_wait_failed (bits : Nat) (os : PollScenario) (w : World)
    (ds : SOCKET) (pi : Nat) (hc : os.CreateEventW ≠ NULL)
    (hs : os.NtDeviceIoControlFile = STATUS_PENDING)
    (hw : os.WaitForSingleObject = WAIT_FAILED) :
    afd_poll bits os w ds pi none =
      ⟨-1, { lastError := os.WaitForSingleObject_error
             open_handles := w.open_handles
             trace := w.trace ++
              [.CreateEventW os.CreateEventW,
                .NtDeviceIoControlFile ds os.CreateEventW none IOCTL_AFD_POLL pi STATUS_PENDING,
                .WaitForSingleObject os.CreateEventW INFINITE WAIT_FAILED,
                .GetLastError os.WaitForSingleObject_error,
                .CloseHandle os.CreateEventW] }, none⟩ := by
  simp [afd_poll, hc, hs, hw, afd_poll_submit, release, World.call, GetLastError,
    return_error]

theorem afd_poll_sync_waited (bits : Nat) (os : PollScenario) (w : World)
    (ds : SOCKET) (pi : Nat) (hc : os.CreateEventW ≠ NULL)
    (hs : os.NtDeviceIoControlFile = STATUS_PENDING)
    (hw : os.WaitForSingleObject ≠ WAIT_FAILED) :
    afd_poll bits os w ds pi none =
      ⟨(afd_poll_translate os (iosb_after_wait os) (sync_world os w
          [.CreateEventW os.CreateEventW,
            .NtDeviceIoControlFile ds os.CreateEventW none IOCTL_AFD_POLL pi STATUS_PENDING,
            .WaitForSingleObject os.CreateEventW INFINITE os.WaitForSingleObject,
            .CloseHandle os.CreateEventW])).1,
        (afd_poll_translate os (iosb_after_wait os) (sync_world os w
          [.CreateEventW os.CreateEventW,
            .NtDeviceIoControlFile ds os.CreateEventW none IOCTL_AFD_POLL pi STATUS_PENDING,
            .WaitForSingleObject os.CreateEventW INFINITE os.WaitForSingleObject,
            .CloseHandle os.CreateEventW])).2, none⟩ := by
  simp [afd_poll, hc, hs, hw, afd_poll_submit, release, World.call, sync_world,
    iosb_after_wait]

theorem new_calls_append (w after : World) (calls : List Call)
    (h : after.trace = w.trace ++ calls) : new_calls w after = calls := by
  simp [new_calls, h]

theorem sync_world_translate_calls (os : PollScenario) (w : World) (calls : List Call)
    (s : NTSTATUS) :
    new_calls w (afd_poll_translate os s (sync_world os w calls)).2 =
      calls ++ translation_calls os s := by
  apply new_calls_append
  rw [translate_trace]
  simp [sync_world]

theorem closeHandle_not_mem_translation_calls (os : PollScenario) (s : NTSTATUS) (h : HANDLE) :
    Call.CloseHandle h ∉ translation_calls os s := by
  unfold translation_calls
  split_ifs <;> simp

theorem count_closeHandle_translation_calls (os : PollScenario) (s : NTSTATUS) (h : HANDLE) :
    (translation_calls os s).count (Call.CloseHandle h) = 0 :=
  List.count_eq_zero.mpr (closeHandle_not_mem_translation_calls os s h)

/-! ## Lemmas on `afd_create_driver_socket` and `afd_get_protocol_info` -/

theorem create_socket_failed (bits : Nat) (os : SocketScenario) (t : WSAPROTOCOL_INFOW)
    (w : World) (iocp : HANDLE) (h : os.WSASocketW = INVALID_SOCKET bits) :
    afd_create_driver_socket bits os t w iocp =
      ⟨-1, none, { w with
        lastError := os.WSASocketW_error
        trace := w.trace ++ [.WSASocketW t.iAddressFamily t.iSocketType t.iProtocol t 0
          WSA_FLAG_OVERLAPPED os.WSASocketW] }⟩ := by
  simp [afd_create_driver_socket, h, return_error, World.call]

theorem create_socket_inherit_failed (bits : Nat) (os : SocketScenario)
    (t : WSAPROTOCOL_INFOW) (w : World) (iocp : HANDLE)
    (h : os.WSASocketW ≠ INVALID_SOCKET bits) (h1 : os.SetHandleInformation = false) :
    afd_create_driver_socket bits os t w iocp =
      ⟨-1, none, { w with
        lastError := os.SetHandleInformation_error
        trace := w.trace ++ [.WSASocketW t.iAddressFamily t.iSocketType t.iProtocol t 0
            WSA_FLAG_OVERLAPPED os.WSASocketW,
          .SetHandleInformation os.WSASocketW HANDLE_FLAG_INHERIT 0 false,
          .GetLastError os.SetHandleInformation_error,
          .closesocket os.WSASocketW] }⟩ := by
  simp [afd_create_driver_socket, afd_create_driver_socket_error, h, h1, return_error,
    World.call, GetLastError, release]

theorem create_socket_iocp_failed (bits : Nat) (os : SocketScenario)
    (t : WSAPROTOCOL_INFOW) (w : World) (iocp : HANDLE)
    (h : os.WSASocketW ≠ INVALID_SOCKET bits) (h1 : os.SetHandleInformation = true)
    (h2 : os.CreateIoCompletionPort = NULL) :
    afd_create_driver_socket bits os t w iocp =
      ⟨-1, none, { w with
        lastError := os.CreateIoCompletionPort_error
        trace := w.trace ++ [.WSASocketW t.iAddressFamily t.iSocketType t.iProtocol t 0
            WSA_FLAG_OVERLAPPED os.WSASocketW,
          .SetHandleInformation os.WSASocketW HANDLE_FLAG_INHERIT 0 true,
          .CreateIoCompletionPort os.WSASocketW iocp 0 0 NULL,
          .GetLastError os.CreateIoCompletionPort_error,
          .closesocket os.WSASocketW] }⟩ := by
  simp [afd_create_driver_socket, afd_create_driver_socket_error, h, h1, h2, return_error,
    World.call, GetLastError, release]

theorem create_socket_ok (bits : Nat) (os : SocketScenario)
    (t : WSAPROTOCOL_INFOW) (w : World) (iocp : HANDLE)
    (h : os.WSASocketW ≠ INVALID_SOCKET bits) (h1 : os.SetHandleInformation = true)
    (h2 : os.CreateIoCompletionPort ≠ NULL) :
    afd_create_driver_socket bits os t w iocp =
      ⟨0, some os.WSASocketW, { w with
        open_handles := os.WSASocketW :: w.open_handles
        trace := w.trace ++ [.WSASocketW t.iAddressFamily t.iSocketType t.iProtocol t 0
            WSA_FLAG_OVERLAPPED os.WSASocketW,
          .SetHandleInformation os.WSASocketW HANDLE_FLAG_INHERIT 0 true,
          .CreateIoCompletionPort os.WSASocketW iocp 0 0 os.CreateIoCompletionPort] }⟩ := by
  simp [afd_create_driver_socket, h, h1, h2, World.call]

theorem query_ok (os : ResolveScenario) (w : World) (s : SOCKET)
    (buf : Option WSAPROTOCOL_INFOW) (info : WSAPROTOCOL_INFOW) (h : QueryOk os s info) :
    _afd_get_protocol_info os w s buf = (0, some info, w.call (.getsockopt s true)) := by
  simp [_afd_get_protocol_info, h.1, (allowListed_iff info).mpr h.2]

theorem query_error (os : ResolveScenario) (w : World) (s : SOCKET)
    (buf : Option WSAPROTOCOL_INFOW) (e : DWORD) (h : os.getsockopt s = .error e) :
    _afd_get_protocol_info os w s buf =
      (-1, buf, { w.call (.getsockopt s false) with lastError := e }) := by
  simp [_afd_get_protocol_info, h, return_error]

theorem query_not_afd (os : ResolveScenario) (w : World) (s : SOCKET)
    (buf : Option WSAPROTOCOL_INFOW) (info : WSAPROTOCOL_INFOW)
    (h : os.getsockopt s = .ok info) (hn : ¬ AllowListed info) :
    _afd_get_protocol_info os w s buf =
      (-1, some info, { w.call (.getsockopt s true) with
        lastError := ERROR_DEVICE_FEATURE_NOT_SUPPORTED }) := by
  have hb : ¬ _afd_guid_loop info.ProviderId _AFD_PROVIDER_GUID_LIST = true :=
    fun hb => hn ((allowListed_iff info).mp hb)
  simp [_afd_get_protocol_info, h, hb, return_error]

/-- Every query ends in one of three ways. -/
theorem query_cases (os : ResolveScenario) (s : SOCKET) :
    (∃ info, QueryOk os s info) ∨ ∃ e, QueryFailsWith os s e := by
  cases hg : os.getsockopt s with
  | error e => exact Or.inr ⟨e, Or.inl hg⟩
  | ok info =>
    by_cases ha : AllowListed info
    · exact Or.inl ⟨info, hg, ha⟩
    · exact Or.inr ⟨_, Or.inr ⟨info, hg, ha, rfl⟩⟩

theorem query_not_both (os : ResolveScenario) (s : SOCKET) (info : WSAPROTOCOL_INFOW)
    (e : DWORD) (h1 : QueryOk os s info) (h2 : QueryFailsWith os s e) : False := by
  rcases h2 with h2 | ⟨i, h2, hn, _⟩
  · rw [h1.1] at h2
    cases h2
  · rw [h1.1] at h2
    cases h2
    exact hn h1.2

/-- A failed query returns -1, leaves its error code as the last error and adds one call. -/
theorem query_fails (os : ResolveScenario) (w : World) (s : SOCKET)
    (buf : Option WSAPROTOCOL_INFOW) (e : DWORD) (h : QueryFailsWith os s e) :
    ∃ buf1 ok, _afd_get_protocol_info os w s buf =
      (-1, buf1, { w with lastError := e, trace := w.trace ++ [.getsockopt s ok] }) ∧
      (e ≠ ERROR_DEVICE_FEATURE_NOT_SUPPORTED → ok = false) := by
  rcases h with h | ⟨info, h, hn, he⟩
  · exact ⟨buf, false, by rw [query_error os w s buf e h]; rfl, fun _ => rfl⟩
  · exact ⟨some info, true, by rw [query_not_afd os w s buf info h hn, he]; rfl,
      fun hne => absurd he hne⟩

theorem resolve_direct (bits : Nat) (os : ResolveScenario) (w : World) (s : SOCKET)
    (info : WSAPROTOCOL_INFOW) (h : QueryOk os s info) :
    afd_get_protocol_info bits os w s =
      ⟨0, some s, some info, { w with trace := w.trace ++ [.getsockopt s true] }⟩ := by
  simp [afd_get_protocol_info, query_ok os w s none info h, World.call]

theorem resolve_other_error (bits : Nat) (os : ResolveScenario) (w : World) (s : SOCKET)
    (e : DWORD) (h : QueryFailsWith os s e) (he : e ≠ ERROR_DEVICE_FEATURE_NOT_SUPPORTED) :
    ∃ buf, afd_get_protocol_info bits os w s =
      ⟨-1, none, buf, { w with
        lastError := e
        trace := w.trace ++ [.getsockopt s false, .GetLastError e] }⟩ := by
  obtain ⟨buf, ok, hq, hok⟩ := query_fails os w s none e h
  rw [hok he] at hq
  exact ⟨buf, by simp [afd_get_protocol_info, hq, GetLastError, World.call, he]⟩

theorem resolve_no_base (bits : Nat) (os : ResolveScenario) (w : World) (s : SOCKET)
    (h : QueryFailsWith os s ERROR_DEVICE_FEATURE_NOT_SUPPORTED)
    (hb : os.ws_get_base_socket s = INVALID_SOCKET bits ∨ os.ws_get_base_socket s = s) :
    ∃ buf ok, afd_get_protocol_info bits os w s =
      ⟨-1, none, buf, { w with
        lastError := ERROR_DEVICE_FEATURE_NOT_SUPPORTED
        trace := w.trace ++ [.getsockopt s ok,
          .GetLastError ERROR_DEVICE_FEATURE_NOT_SUPPORTED,
          .ws_get_base_socket s (os.ws_get_base_socket s)] }⟩ := by
  obtain ⟨buf, ok, hq, _⟩ := query_fails os w s none _ h
  exact ⟨buf, ok, by simp [afd_get_protocol_info, hq, GetLastError, World.call, hb,
    return_error]⟩

theorem resolve_base_ok (bits : Nat) (os : ResolveScenario) (w : World) (s : SOCKET)
    (info : WSAPROTOCOL_INFOW)
    (h : QueryFailsWith os s ERROR_DEVICE_FEATURE_NOT_SUPPORTED)
    (hb1 : os.ws_get_base_socket s ≠ INVALID_SOCKET bits) (hb2 : os.ws_get_base_socket s ≠ s)
    (h2 : QueryOk os (os.ws_get_base_socket s) info) :
    ∃ ok, afd_get_protocol_info bits os w s =
      ⟨0, some (os.ws_get_base_socket s), some info, { w with
        lastError := (os.ws_get_base_socket_error s).getD ERROR_DEVICE_FEATURE_NOT_SUPPORTED
        trace := w.trace ++ [.getsockopt s ok,
          .GetLastError ERROR_DEVICE_FEATURE_NOT_SUPPORTED,
          .ws_get_base_socket s (os.ws_get_base_socket s),
          .getsockopt (os.ws_get_base_socket s) true] }⟩ := by
  obtain ⟨buf, ok, hq, _⟩ := query_fails os w s none _ h
  exact ⟨ok, by simp [afd_get_protocol_info, hq, GetLastError, World.call, hb1, hb2,
    query_ok os _ _ buf info h2]⟩

theorem resolve_base_fails (bits : Nat) (os : ResolveScenario) (w : World) (s : SOCKET)
    (e : DWORD) (h : QueryFailsWith os s ERROR_DEVICE_FEATURE_NOT_SUPPORTED)
    (hb1 : os.ws_get_base_socket s ≠ INVALID_SOCKET bits) (hb2 : os.ws_get_base_socket s ≠ s)
    (h2 : QueryFailsWith os (os.ws_get_base_socket s) e) :
    ∃ buf ok ok2, afd_get_protocol_info bits os w s =
      ⟨-1, none, buf, { w with
        lastError := e
        trace := w.trace ++ [.getsockopt s ok,
          .GetLastError ERROR_DEVICE_FEATURE_NOT_SUPPORTED,
          .ws_get_base_socket s (os.ws_get_base_socket s),
          .getsockopt (os.ws_get_base_socket s) ok2] }⟩ := by
  obtain ⟨buf, ok, hq, _⟩ := query_fails os w s none _ h
  obtain ⟨buf2, ok2, hq2, _⟩ := query_fails os
    { w with
      lastError := (os.ws_get_base_socket_error s).getD ERROR_DEVICE_FEATURE_NOT_SUPPORTED
      trace := w.trace ++ [.getsockopt s ok,
          .GetLastError ERROR_DEVICE_FEATURE_NOT_SUPPORTED,
          .ws_get_base_socket s (os.ws_get_base_socket s)] }
    (os.ws_get_base_socket s) buf e h2
  refine ⟨buf2, ok, ok2, ?_⟩
  simp only [List.append_assoc, List.cons_append, List.nil_append] at hq2
  simp [afd_get_protocol_info, hq, GetLastError, World.call, hb1, hb2, hq2]

/-- C1: for every catalog and every protocol filter, `_afd_find_protocol_info` returns the
entry at the lowest index whose provider identity is byte-for-byte equal to one of the GUIDs
of the allow-list and whose protocol the filter accepts (the filter `-1` accepts every
protocol); it returns `NULL` exactly when no entry satisfies both conditions; with the
filter "any" it returns an allow-listed entry iff the catalog holds an allow-listed entry,
and `NULL` iff it holds none. -/
theorem C1_find_protocol_info (infos : List WSAPROTOCOL_INFOW) (protocol_id : Int) :
    (∀ i info, _afd_find_protocol_info infos protocol_id = some (i, info) ↔
      (infos[i]? = some info ∧
        ((∃ g ∈ _AFD_PROVIDER_GUID_LIST, info.ProviderId.bytes = g.bytes) ∧
          (protocol_id = -1 ∨ protocol_id = info.iProtocol)) ∧
        ∀ k e, k < i → infos[k]? = some e → ¬ Matches protocol_id e)) ∧
    (_afd_find_protocol_info infos protocol_id = none ↔
      ∀ e ∈ infos, ¬ Matches protocol_id e) ∧
    ((∃ r, _afd_find_protocol_info infos _AFD_ANY_PROTOCOL = some r ∧ AllowListed r.2) ↔
      ∃ e ∈ infos, AllowListed e) ∧
    (_afd_find_protocol_info infos _AFD_ANY_PROTOCOL = none ↔
      ∀ e ∈ infos, ¬ AllowListed e) := by
  refine ⟨fun i info => find_some_iff infos protocol_id i info, find_none_iff infos protocol_id,
    ?_, ?_⟩
  · constructor
    · rintro ⟨⟨i, info⟩, hr, ha⟩
      have h := (find_some_iff infos _ i info).mp hr
      exact ⟨info, List.getElem?_mem h.1, ha⟩
    · rintro ⟨e, he, ha⟩
      cases hf : _afd_find_protocol_info infos _AFD_ANY_PROTOCOL with
      | none =>
        exact absurd ((matches_any_iff e).mpr ha) ((find_none_iff infos _).mp hf e he)
      | some r =>
        obtain ⟨i, info⟩ := r
        exact ⟨(i, info), rfl, (matches_any_iff info).mp ((find_some_iff infos _ i info).mp hf).2.1⟩
  · rw [find_none_iff]
    simp only [matches_any_iff]

/-- C2: for every catalog that was loaded, `afd_global_init` returns 0 and stores in the
driver socket template the first allow-listed entry with protocol UDP if there is one,
otherwise the first allow-listed entry with protocol TCP if there is one, otherwise the
first allow-listed entry of any protocol; in particular, when the catalog holds both an
allow-listed UDP entry and an allow-listed TCP entry, in either order, the template is the
first allow-listed UDP entry. -/
theorem C2_global_init_selection (infos : List WSAPROTOCOL_INFOW)
    (template : WSAPROTOCOL_INFOW) (w : World) :
    (∀ i info, FirstMatch infos IPPROTO_UDP i info →
      afd_global_init (some infos) template w = (0, info, w)) ∧
    ((∀ e ∈ infos, ¬ Matches IPPROTO_UDP e) → ∀ i info, FirstMatch infos IPPROTO_TCP i info →
      afd_global_init (some infos) template w = (0, info, w)) ∧
    ((∀ e ∈ infos, ¬ Matches IPPROTO_UDP e) → (∀ e ∈ infos, ¬ Matches IPPROTO_TCP e) →
      ∀ i info, FirstMatch infos _AFD_ANY_PROTOCOL i info →
        afd_global_init (some infos) template w = (0, info, w)) ∧
    (∀ u t, u ∈ infos → t ∈ infos →
      AllowListed u → u.iProtocol = IPPROTO_UDP → AllowListed t → t.iProtocol = IPPROTO_TCP →
      ∃ i info, FirstMatch infos IPPROTO_UDP i info ∧ info.iProtocol = IPPROTO_UDP ∧
        (afd_global_init (some infos) template w).2.1 = info) := by
  refine ⟨?_, ?_, ?_, ?_⟩
  · intro i info h
    exact global_init_udp infos template w i info ((find_some_iff infos _ i info).mpr h)
  · intro hu i info h
    exact global_init_tcp infos template w i info ((find_none_iff infos _).mpr hu)
      ((find_some_iff infos _ i info).mpr h)
  · intro hu ht i info h
    exact global_init_any infos template w i info ((find_none_iff infos _).mpr hu)
      ((find_none_iff infos _).mpr ht) ((find_some_iff infos _ i info).mpr h)
  · intro u t hu _ hau hpu _ _
    obtain ⟨i, info, hf⟩ := find_some_of_mem infos IPPROTO_UDP u hu ⟨hau, Or.inr hpu.symm⟩
    have hfm := (find_some_iff infos _ i info).mp hf
    refine ⟨i, info, hfm, ?_, ?_⟩
    · rcases hfm.2.1.2 with h | h
      · exact absurd h (by decide)
      · exact h.symm
    · rw [global_init_udp infos template w i info hf]

/-- C3: for every catalog that was loaded, `afd_global_init` returns -1 iff the catalog
holds no entry whose provider identity is in the allow-list, and it then leaves the template
as it was and surfaces `WSAENETDOWN`; whenever the catalog holds an allow-listed entry, of
whatever protocol, it returns 0. -/
theorem C3_global_init_failure (infos : List WSAPROTOCOL_INFOW)
    (template : WSAPROTOCOL_INFOW) (w : World) :
    ((afd_global_init (some infos) template w).1 = -1 ↔ ∀ e ∈ infos, ¬ AllowListed e) ∧
    ((∀ e ∈ infos, ¬ AllowListed e) →
      afd_global_init (some infos) template w =
        (-1, template, { w with lastError := WSAENETDOWN })) ∧
    ((∃ e ∈ infos, AllowListed e) → (afd_global_init (some infos) template w).1 = 0) := by
  have hfail : (∀ e ∈ infos, ¬ AllowListed e) →
      afd_global_init (some infos) template w =
        (-1, template, { w with lastError := WSAENETDOWN }) := fun h =>
    global_init_none infos template w (find_none_of_not_allowListed infos _ h)
      (find_none_of_not_allowListed infos _ h) (find_none_of_not_allowListed infos _ h)
  refine ⟨⟨?_, fun h => by rw [hfail h]⟩, hfail, global_init_ret_of_allowListed infos template w⟩
  intro hret e he ha
  rw [global_init_ret_of_allowListed infos template w ⟨e, he, ha⟩] at hret
  exact absurd hret (by decide)

/-- C5: for every handle value `h` with low bit 0: when the descriptor's `hEvent` is
`h | 1`, `afd_poll` submits with exactly `h` as the signal handle and a null completion
context; when `hEvent` is `h` itself, it submits with `h` unchanged and the descriptor as
the completion context. Masking the low bit off the tagged handle gives back `h`, masking
it off `h` gives `h`; for every `hEvent` the effective handle is `hEvent & ~1`, and the
completion context is null iff the low bit of `hEvent` is set. -/
theorem C5_low_bit_convention (bits : Nat) (os : PollScenario) (w : World)
    (driver_socket : SOCKET) (poll_info : Nat) (iosb : NTSTATUS) (h : HANDLE)
    (hbits : 0 < bits) (hh : h < 2 ^ bits) (hlow : h % 2 = 0) :
    (∃ rest, (afd_poll bits os w driver_socket poll_info (some ⟨iosb, h ||| 1⟩)).world.trace =
      w.trace ++ Call.NtDeviceIoControlFile driver_socket h none IOCTL_AFD_POLL poll_info
        os.NtDeviceIoControlFile :: rest) ∧
    (∃ rest, (afd_poll bits os w driver_socket poll_info (some ⟨iosb, h⟩)).world.trace =
      w.trace ++ Call.NtDeviceIoControlFile driver_socket h (some ⟨iosb, h⟩) IOCTL_AFD_POLL
        poll_info os.NtDeviceIoControlFile :: rest) ∧
    uintptr bits (h ||| 1) &&& uintptr_not bits 1 = h ∧
    uintptr bits h &&& uintptr_not bits 1 = h ∧
    (∀ e, e < 2 ^ bits →
      (afd_poll_event bits ⟨iosb, e⟩).1 = uintptr bits e &&& uintptr_not bits 1 ∧
      ((afd_poll_event bits ⟨iosb, e⟩).2 = none ↔ e % 2 = 1) ∧
      ((afd_poll_event bits ⟨iosb, e⟩).2 = some ⟨iosb, e⟩ ↔ e % 2 = 0)) := by
  have htag : afd_poll_event bits ⟨iosb, h ||| 1⟩ = (h, none) := by
    rw [afd_poll_event_tagged bits _ (or_one_lt bits h hbits hh) (or_one_mod_two h)]
    simp only [uintptr_not_one bits hbits, or_one_and_mask bits h hbits hh hlow]
  have hun : afd_poll_event bits ⟨iosb, h⟩ = (h, some ⟨iosb, h⟩) :=
    afd_poll_event_untagged bits _ hh hlow
  refine ⟨?_, ?_, ?_, ?_, ?_⟩
  · rw [afd_poll_async_trace, htag]
    exact ⟨_, rfl⟩
  · rw [afd_poll_async_trace, hun]
    exact ⟨_, rfl⟩
  · rw [uintptr_of_lt bits _ (or_one_lt bits h hbits hh), uintptr_not_one bits hbits,
      or_one_and_mask bits h hbits hh hlow]
  · rw [uintptr_of_lt bits _ hh, uintptr_not_one bits hbits, and_mask_even bits h hbits hh hlow]
  · intro e he
    rcases Nat.mod_two_eq_zero_or_one e with h0 | h1
    · rw [afd_poll_event_untagged bits ⟨iosb, e⟩ he h0, uintptr_of_lt bits _ he,
        uintptr_not_one bits hbits, and_mask_even bits e hbits he h0]
      simp [h0]
    · rw [afd_poll_event_tagged bits ⟨iosb, e⟩ he h1, uintptr_of_lt bits _ he]
      simp [h1]

/-- C6: for every call of `afd_poll` without a completion descriptor the open handles after
the call are those before it. When event creation fails, nothing is created, nothing is
submitted, and the call returns -1 with the error of `CreateEventW`. When it succeeds, the
event is closed exactly once and no other handle is closed: when the wait fails, the close
comes after the error was read and before the return; on every other path (immediate
completion, completion after the wait, any kernel status) it comes after the submission and
the wait and before the status translation. -/
theorem C6_sync_event_closed (bits : Nat) (os : PollScenario) (w : World)
    (driver_socket : SOCKET) (poll_info : Nat) :
    (afd_poll bits os w driver_socket poll_info none).world.open_handles = w.open_handles ∧
    (os.CreateEventW = NULL →
      (afd_poll bits os w driver_socket poll_info none).ret = -1 ∧
      (afd_poll bits os w driver_socket poll_info none).world.lastError =
        os.CreateEventW_error ∧
      new_calls w (afd_poll bits os w driver_socket poll_info none).world =
        [Call.CreateEventW NULL]) ∧
    (os.CreateEventW ≠ NULL →
      (new_calls w (afd_poll bits os w driver_socket poll_info none).world).count
        (Call.CloseHandle os.CreateEventW) = 1 ∧
      ∀ h, Call.CloseHandle h ∈
        new_calls w (afd_poll bits os w driver_socket poll_info none).world →
          h = os.CreateEventW) ∧
    (os.CreateEventW ≠ NULL → os.NtDeviceIoControlFile = STATUS_PENDING →
      os.WaitForSingleObject = WAIT_FAILED →
      (afd_poll bits os w driver_socket poll_info none).ret = -1 ∧
      new_calls w (afd_poll bits os w driver_socket poll_info none).world =
        [Call.CreateEventW os.CreateEventW,
          Call.NtDeviceIoControlFile driver_socket os.CreateEventW none IOCTL_AFD_POLL
            poll_info STATUS_PENDING,
          Call.WaitForSingleObject os.CreateEventW INFINITE WAIT_FAILED,
          Call.GetLastError os.WaitForSingleObject_error,
          Call.CloseHandle os.CreateEventW]) ∧
    (os.CreateEventW ≠ NULL → os.NtDeviceIoControlFile = STATUS_PENDING →
      os.WaitForSingleObject ≠ WAIT_FAILED →
      new_calls w (afd_poll bits os w driver_socket poll_info none).world =
        [Call.CreateEventW os.CreateEventW,
          Call.NtDeviceIoControlFile driver_socket os.CreateEventW none IOCTL_AFD_POLL
            poll_info STATUS_PENDING,
          Call.WaitForSingleObject os.CreateEventW INFINITE os.WaitForSingleObject,
          Call.CloseHandle os.CreateEventW] ++
        translation_calls os (iosb_after_wait os)) ∧
    (os.CreateEventW ≠ NULL → os.NtDeviceIoControlFile ≠ STATUS_PENDING →
      new_calls w (afd_poll bits os w driver_socket poll_info none).world =
        [Call.CreateEventW os.CreateEventW,
          Call.NtDeviceIoControlFile driver_socket os.CreateEventW none IOCTL_AFD_POLL
            poll_info os.NtDeviceIoControlFile,
          Call.CloseHandle os.CreateEventW] ++
        translation_calls os os.NtDeviceIoControlFile) := by
  by_cases hc : os.CreateEventW = NULL
  · rw [afd_poll_sync_create_failed bits os w driver_socket poll_info hc]
    simp [hc, new_calls]
  · by_cases hs : os.NtDeviceIoControlFile = STATUS_PENDING
    · by_cases hw : os.WaitForSingleObject = WAIT_FAILED
      · rw [afd_poll_sync_wait_failed bits os w driver_socket poll_info hc hs hw]
        simp [hc, hs, hw, new_calls]
      · rw [afd_poll_sync_waited bits os w driver_socket poll_info hc hs hw]
        simp only [translate_open_handles, sync_world_translate_calls]
        refine ⟨by simp [sync_world], fun h => absurd h hc, fun _ => ⟨?_, ?_⟩,
          fun _ _ h => absurd h hw, fun _ _ _ => trivial, fun _ h => absurd hs h⟩
        · rw [List.count_append, count_closeHandle_translation_calls]
          simp
        · intro h hm
          rcases List.mem_append.mp hm with hm | hm
          · simpa using hm
          · exact absurd hm (closeHandle_not_mem_translation_calls os _ h)
    · rw [afd_poll_sync_immediate bits os w driver_socket poll_info hc hs]
      simp only [translate_open_handles, sync_world_translate_calls]
      refine ⟨by simp [sync_world], fun h => absurd h hc, fun _ => ⟨?_, ?_⟩,
        fun _ h => absurd h hs, fun _ h => absurd h hs, fun _ _ => trivial⟩
      · rw [List.count_append, count_closeHandle_translation_calls]
        simp
      · intro h hm
        rcases List.mem_append.mp hm with hm | hm
        · simpa using hm
        · exact absurd hm (closeHandle_not_mem_translation_calls os _ h)

/-- C8: for every call of `afd_create_driver_socket`: it returns 0 iff socket creation, the
clearing of the inherit flag and the association with the supplied completion port all
succeeded; it then made exactly these three calls in that order (the last with completion
key 0) and wrote the new socket through `driver_socket_out`. When socket creation fails, no
socket exists and the error of `WSASocketW` is surfaced. When one of the two later steps
fails, the error of that step is read before the socket is closed and is the error
surfaced, whatever `closesocket` leaves behind. After every failing call nothing was
written through `driver_socket_out` and the open handles are those before the call. -/
theorem C8_create_driver_socket (bits : Nat) (os : SocketScenario)
    (template : WSAPROTOCOL_INFOW) (w : World) (iocp : HANDLE) :
    ((afd_create_driver_socket bits os template w iocp).ret = 0 ↔
      (os.WSASocketW ≠ INVALID_SOCKET bits ∧ os.SetHandleInformation = true ∧
        os.CreateIoCompletionPort ≠ NULL)) ∧
    ((afd_create_driver_socket bits os template w iocp).ret = 0 →
      (afd_create_driver_socket bits os template w iocp).driver_socket_out =
        some os.WSASocketW ∧
      (afd_create_driver_socket bits os template w iocp).world.open_handles =
        os.WSASocketW :: w.open_handles ∧
      new_calls w (afd_create_driver_socket bits os template w iocp).world =
        [Call.WSASocketW template.iAddressFamily template.iSocketType template.iProtocol
            template 0 WSA_FLAG_OVERLAPPED os.WSASocketW,
          Call.SetHandleInformation os.WSASocketW HANDLE_FLAG_INHERIT 0 true,
          Call.CreateIoCompletionPort os.WSASocketW iocp 0 0 os.CreateIoCompletionPort]) ∧
    (os.WSASocketW = INVALID_SOCKET bits →
      (afd_create_driver_socket bits os template w iocp).ret = -1 ∧
      (afd_create_driver_socket bits os template w iocp).world.lastError =
        os.WSASocketW_error ∧
      new_calls w (afd_create_driver_socket bits os template w iocp).world =
        [Call.WSASocketW template.iAddressFamily template.iSocketType template.iProtocol
            template 0 WSA_FLAG_OVERLAPPED os.WSASocketW]) ∧
    (os.WSASocketW ≠ INVALID_SOCKET bits → os.SetHandleInformation = false →
      (afd_create_driver_socket bits os template w iocp).ret = -1 ∧
      (afd_create_driver_socket bits os template w iocp).world.lastError =
        os.SetHandleInformation_error ∧
      new_calls w (afd_create_driver_socket bits os template w iocp).world =
        [Call.WSASocketW template.iAddressFamily template.iSocketType template.iProtocol
            template 0 WSA_FLAG_OVERLAPPED os.WSASocketW,
          Call.SetHandleInformation os.WSASocketW HANDLE_FLAG_INHERIT 0 false,
          Call.GetLastError os.SetHandleInformation_error,
          Call.closesocket os.WSASocketW]) ∧
    (os.WSASocketW ≠ INVALID_SOCKET bits → os.SetHandleInformation = true →
      os.CreateIoCompletionPort = NULL →
      (afd_create_driver_socket bits os template w iocp).ret = -1 ∧
      (afd_create_driver_socket bits os template w iocp).world.lastError =
        os.CreateIoCompletionPort_error ∧
      new_calls w (afd_create_driver_socket bits os template w iocp).world =
        [Call.WSASocketW template.iAddressFamily template.iSocketType template.iProtocol
            template 0 WSA_FLAG_OVERLAPPED os.WSASocketW,
          Call.SetHandleInformation os.WSASocketW HANDLE_FLAG_INHERIT 0 true,
          Call.CreateIoCompletionPort os.WSASocketW iocp 0 0 NULL,
          Call.GetLastError os.CreateIoCompletionPort_error,
          Call.closesocket os.WSASocketW]) ∧
    ((afd_create_driver_socket bits os template w iocp).ret ≠ 0 →
      (afd_create_driver_socket bits os template w iocp).driver_socket_out = none ∧
      (afd_create_driver_socket bits os template w iocp).world.open_handles =
        w.open_handles) := by
  by_cases h : os.WSASocketW = INVALID_SOCKET bits
  · rw [create_socket_failed bits os template w iocp h]
    simp [h, new_calls]
  · cases h1 : os.SetHandleInformation with
    | false =>
      rw [create_socket_inherit_failed bits os template w iocp h h1]
      simp [h, new_calls]
    | true =>
      by_cases h2 : os.CreateIoCompletionPort = NULL
      · rw [create_socket_iocp_failed bits os template w iocp h h1 h2]
        simp [h, h2, new_calls]
      · rw [create_socket_ok bits os template w iocp h h1 h2]
        simp [h, h2, new_calls]

/-- C9: for every socket `s`: when the provider-info query on `s` succeeds with an
allow-listed identity, `afd_get_protocol_info` returns 0 with `s` itself and that record,
and its only call is that query (the base-socket query is not issued); when that query
fails with `ERROR_DEVICE_FEATURE_NOT_SUPPORTED`, the base socket `b` of `s` is valid and
different from `s`, and the query on `b` succeeds with an allow-listed identity, it returns
0 with `b` and the record of `b`. Whenever it succeeds, the record returned is the answer of
the query on the returned handle and its identity is in the allow-list, and the returned
handle is `s` or `b`; it succeeds without a successful direct query exactly under the
conditions of the two-step path. -/
theorem C9_resolve_success (bits : Nat) (os : ResolveScenario) (w : World) (s : SOCKET) :
    (∀ info, QueryOk os s info →
      (afd_get_protocol_info bits os w s).ret = 0 ∧
      (afd_get_protocol_info bits os w s).afd_socket_out = some s ∧
      (afd_get_protocol_info bits os w s).protocol_info = some info ∧
      new_calls w (afd_get_protocol_info bits os w s).world = [Call.getsockopt s true]) ∧
    (QueryFailsWith os s ERROR_DEVICE_FEATURE_NOT_SUPPORTED →
      os.ws_get_base_socket s ≠ INVALID_SOCKET bits → os.ws_get_base_socket s ≠ s →
      ∀ info, QueryOk os (os.ws_get_base_socket s) info →
        (afd_get_protocol_info bits os w s).ret = 0 ∧
        (afd_get_protocol_info bits os w s).afd_socket_out = some (os.ws_get_base_socket s) ∧
        (afd_get_protocol_info bits os w s).protocol_info = some info) ∧
    ((afd_get_protocol_info bits os w s).ret = 0 →
      ∃ h info, (afd_get_protocol_info bits os w s).afd_socket_out = some h ∧
        (afd_get_protocol_info bits os w s).protocol_info = some info ∧
        os.getsockopt h = .ok info ∧
        (∃ g ∈ _AFD_PROVIDER_GUID_LIST, info.ProviderId.bytes = g.bytes) ∧
        ((h = s ∧ ∃ i, QueryOk os s i) ∨
          (h = os.ws_get_base_socket s ∧ ¬ ∃ i, QueryOk os s i))) ∧
    (((afd_get_protocol_info bits os w s).ret = 0 ∧ ¬ ∃ i, QueryOk os s i) ↔
      (QueryFailsWith os s ERROR_DEVICE_FEATURE_NOT_SUPPORTED ∧
        os.ws_get_base_socket s ≠ INVALID_SOCKET bits ∧ os.ws_get_base_socket s ≠ s ∧
        ∃ info, QueryOk os (os.ws_get_base_socket s) info)) := by
  have hno : ∀ e, QueryFailsWith os s e → ¬ ∃ i, QueryOk os s i :=
    fun e he ⟨i, hi⟩ => query_not_both os s i e hi he
  refine ⟨?_, ?_, ?_, ?_⟩
  · intro info h
    rw [resolve_direct bits os w s info h]
    simp [new_calls]
  · intro h hb1 hb2 info h2
    obtain ⟨ok, hr⟩ := resolve_base_ok bits os w s info h hb1 hb2 h2
    rw [hr]
    exact ⟨rfl, rfl, rfl⟩
  · intro hret
    rcases query_cases os s with ⟨info, h⟩ | ⟨e, h⟩
    · rw [resolve_direct bits os w s info h]
      exact ⟨s, info, rfl, rfl, h.1, h.2, Or.inl ⟨rfl, info, h⟩⟩
    · by_cases he : e = ERROR_DEVICE_FEATURE_NOT_SUPPORTED
      · subst he
        by_cases hb : os.ws_get_base_socket s = INVALID_SOCKET bits ∨ os.ws_get_base_socket s = s
        · obtain ⟨buf, ok, hr⟩ := resolve_no_base bits os w s h hb
          rw [hr] at hret
          exact absurd hret (show ¬ ((-1 : Int) = 0) by decide)
        · have hb1 : os.ws_get_base_socket s ≠ INVALID_SOCKET bits := fun x => hb (Or.inl x)
          have hb2 : os.ws_get_base_socket s ≠ s := fun x => hb (Or.inr x)
          rcases query_cases os (os.ws_get_base_socket s) with ⟨info, h2⟩ | ⟨e2, h2⟩
          · obtain ⟨ok, hr⟩ := resolve_base_ok bits os w s info h hb1 hb2 h2
            rw [hr]
            exact ⟨_, info, rfl, rfl, h2.1, h2.2, Or.inr ⟨rfl, hno _ h⟩⟩
          · obtain ⟨buf, ok, ok2, hr⟩ := resolve_base_fails bits os w s e2 h hb1 hb2 h2
            rw [hr] at hret
            exact absurd hret (show ¬ ((-1 : Int) = 0) by decide)
      · obtain ⟨buf, hr⟩ := resolve_other_error bits os w s e h he
        rw [hr] at hret
        exact absurd hret (show ¬ ((-1 : Int) = 0) by decide)
  · constructor
    · rintro ⟨hret, hdirect⟩
      rcases query_cases os s with ⟨info, h⟩ | ⟨e, h⟩
      · exact absurd ⟨info, h⟩ hdirect
      · by_cases he : e = ERROR_DEVICE_FEATURE_NOT_SUPPORTED
        · subst he
          by_cases hb : os.ws_get_base_socket s = INVALID_SOCKET bits ∨
              os.ws_get_base_socket s = s
          · obtain ⟨buf, ok, hr⟩ := resolve_no_base bits os w s h hb
            rw [hr] at hret
            exact absurd hret (show ¬ ((-1 : Int) = 0) by decide)
          · have hb1 : os.ws_get_base_socket s ≠ INVALID_SOCKET bits := fun x => hb (Or.inl x)
            have hb2 : os.ws_get_base_socket s ≠ s := fun x => hb (Or.inr x)
            rcases query_cases os (os.ws_get_base_socket s) with ⟨info, h2⟩ | ⟨e2, h2⟩
            · exact ⟨h, hb1, hb2, info, h2⟩
            · obtain ⟨buf, ok, ok2, hr⟩ := resolve_base_fails bits os w s e2 h hb1 hb2 h2
              rw [hr] at hret
              exact absurd hret (show ¬ ((-1 : Int) = 0) by decide)
        · obtain ⟨buf, hr⟩ := resolve_other_error bits os w s e h he
          rw [hr] at hret
          exact absurd hret (show ¬ ((-1 : Int) = 0) by decide)
    · rintro ⟨h, hb1, hb2, info, h2⟩
      obtain ⟨ok, hr⟩ := resolve_base_ok bits os w s info h hb1 hb2 h2
      rw [hr]
      exact ⟨rfl, hno _ h⟩

/-- C10: for every socket `s` on which the direct provider-info query fails: when it fails
with `ERROR_DEVICE_FEATURE_NOT_SUPPORTED` and the base-socket query returns `s` itself or
`INVALID_SOCKET`, `afd_get_protocol_info` returns -1 with
`ERROR_DEVICE_FEATURE_NOT_SUPPORTED`, whatever error the base-socket query left behind;
when it fails with any other code `e`, the call returns -1 with exactly `e` and its only
calls are the query and the reading of the error (the base-socket query is not issued). The
call returns 0 or -1, and on every failing path nothing is written through
`afd_socket_out`. -/
theorem C10_resolve_failure (bits : Nat) (os : ResolveScenario) (w : World) (s : SOCKET) :
    (QueryFailsWith os s ERROR_DEVICE_FEATURE_NOT_SUPPORTED →
      (os.ws_get_base_socket s = s ∨ os.ws_get_base_socket s = INVALID_SOCKET bits) →
      (afd_get_protocol_info bits os w s).ret = -1 ∧
      (afd_get_protocol_info bits os w s).world.lastError =
        ERROR_DEVICE_FEATURE_NOT_SUPPORTED ∧
      (afd_get_protocol_info bits os w s).afd_socket_out = none) ∧
    (∀ e, e ≠ ERROR_DEVICE_FEATURE_NOT_SUPPORTED → QueryFailsWith os s e →
      (afd_get_protocol_info bits os w s).ret = -1 ∧
      (afd_get_protocol_info bits os w s).world.lastError = e ∧
      (afd_get_protocol_info bits os w s).afd_socket_out = none ∧
      new_calls w (afd_get_protocol_info bits os w s).world =
        [Call.getsockopt s false, Call.GetLastError e]) ∧
    ((afd_get_protocol_info bits os w s).ret = 0 ∨
      (afd_get_protocol_info bits os w s).ret = -1) ∧
    ((afd_get_protocol_info bits os w s).ret ≠ 0 →
      (afd_get_protocol_info bits os w s).afd_socket_out = none) := by
  have hall : ((afd_get_protocol_info bits os w s).ret = 0 ∨
      (afd_get_protocol_info bits os w s).ret = -1) ∧
      ((afd_get_protocol_info bits os w s).ret ≠ 0 →
        (afd_get_protocol_info bits os w s).afd_socket_out = none) := by
    rcases query_cases os s with ⟨info, h⟩ | ⟨e, h⟩
    · rw [resolve_direct bits os w s info h]
      exact ⟨Or.inl rfl, fun hne => absurd rfl hne⟩
    · by_cases he : e = ERROR_DEVICE_FEATURE_NOT_SUPPORTED
      · subst he
        by_cases hb : os.ws_get_base_socket s = INVALID_SOCKET bits ∨ os.ws_get_base_socket s = s
        · obtain ⟨buf, ok, hr⟩ := resolve_no_base bits os w s h hb
          rw [hr]
          exact ⟨Or.inr rfl, fun _ => rfl⟩
        · have hb1 : os.ws_get_base_socket s ≠ INVALID_SOCKET bits := fun x => hb (Or.inl x)
          have hb2 : os.ws_get_base_socket s ≠ s := fun x => hb (Or.inr x)
          rcases query_cases os (os.ws_get_base_socket s) with ⟨info, h2⟩ | ⟨e2, h2⟩
          · obtain ⟨ok, hr⟩ := resolve_base_ok bits os w s info h hb1 hb2 h2
            rw [hr]
            exact ⟨Or.inl rfl, fun hne => absurd rfl hne⟩
          · obtain ⟨buf, ok, ok2, hr⟩ := resolve_base_fails bits os w s e2 h hb1 hb2 h2
            rw [hr]
            exact ⟨Or.inr rfl, fun _ => rfl⟩
      · obtain ⟨buf, hr⟩ := resolve_other_error bits os w s e h he
        rw [hr]
        exact ⟨Or.inr rfl, fun _ => rfl⟩
  refine ⟨?_, ?_, hall.1, hall.2⟩
  · intro h hb
    obtain ⟨buf, ok, hr⟩ := resolve_no_base bits os w s h hb.symm
    rw [hr]
    exact ⟨rfl, rfl, rfl⟩
  · intro e he h
    obtain ⟨buf, hr⟩ := resolve_other_error bits os w s e h he
    rw [hr]
    simp [new_calls]

/-! ## The claims at sample inputs -/

theorem C2_global_init_selection_witness :
    FirstMatch sample_catalog IPPROTO_UDP 2 sample_udp ∧
      afd_global_init (some sample_catalog) sample_lsp sample_world =
        (0, sample_udp, sample_world) :=
  have h : FirstMatch sample_catalog IPPROTO_UDP 2 sample_udp :=
    (find_some_iff sample_catalog IPPROTO_UDP 2 sample_udp).mp (by decide)
  ⟨h, (C2_global_init_selection sample_catalog sample_lsp sample_world).1 2 sample_udp h⟩

theorem C3_global_init_failure_witness :
    (∀ e ∈ [sample_lsp], ¬ AllowListed e) ∧
      afd_global_init (some [sample_lsp]) sample_tcp sample_world =
        (-1, sample_tcp, { sample_world with lastError := WSAENETDOWN }) :=
  have h : ∀ e ∈ [sample_lsp], ¬ AllowListed e := by decide
  ⟨h, (C3_global_init_failure [sample_lsp] sample_tcp sample_world).2.1 h⟩

theorem C5_low_bit_convention_witness :
    (0 < 64 ∧ 500 < 2 ^ 64 ∧ 500 % 2 = 0) ∧
      uintptr 64 (500 ||| 1) &&& uintptr_not 64 1 = 500 ∧
      uintptr 64 500 &&& uintptr_not 64 1 = 500 :=
  ⟨by decide,
    (C5_low_bit_convention 64 sample_poll_os sample_world 300 0 0 500
      (by decide) (by decide) (by decide)).2.2.1,
    (C5_low_bit_convention 64 sample_poll_os sample_world 300 0 0 500
      (by decide) (by decide) (by decide)).2.2.2.1⟩

theorem C6_sync_event_closed_witness :
    sample_poll_os.CreateEventW ≠ NULL ∧
      (new_calls sample_world (afd_poll 64 sample_poll_os sample_world 300 0 none).world).count
        (Call.CloseHandle 500) = 1 :=
  ⟨by decide,
    ((C6_sync_event_closed 64 sample_poll_os sample_world 300 0).2.2.1 (by decide)).1⟩

theorem C8_create_driver_socket_witness :
    (sample_socket_os.WSASocketW ≠ INVALID_SOCKET 64 ∧
      sample_socket_os.SetHandleInformation = true ∧
      sample_socket_os.CreateIoCompletionPort = NULL) ∧
      (afd_create_driver_socket 64 sample_socket_os sample_udp sample_world 44).ret = -1 ∧
      (afd_create_driver_socket 64 sample_socket_os sample_udp sample_world 44).world.lastError
        = 87 :=
  ⟨⟨by decide, rfl, rfl⟩,
    ((C8_create_driver_socket 64 sample_socket_os sample_udp sample_world 44).2.2.2.2.1
      (by decide) rfl rfl).1,
    ((C8_create_driver_socket 64 sample_socket_os sample_udp sample_world 44).2.2.2.2.1
      (by decide) rfl rfl).2.1⟩

theorem C9_resolve_success_witness :
    (QueryFailsWith sample_resolve_os 100 ERROR_DEVICE_FEATURE_NOT_SUPPORTED ∧
      sample_resolve_os.ws_get_base_socket 100 ≠ INVALID_SOCKET 64 ∧
      sample_resolve_os.ws_get_base_socket 100 ≠ 100 ∧
      QueryOk sample_resolve_os 200 sample_tcp) ∧
      (afd_get_protocol_info 64 sample_resolve_os sample_world 100).ret = 0 ∧
      (afd_get_protocol_info 64 sample_resolve_os sample_world 100).afd_socket_out =
        some 200 ∧
      (afd_get_protocol_info 64 sample_resolve_os sample_world 100).protocol_info =
        some sample_tcp :=
  have h1 : QueryFailsWith sample_resolve_os 100 ERROR_DEVICE_FEATURE_NOT_SUPPORTED :=
    Or.inr ⟨sample_lsp, rfl, by decide, rfl⟩
  have h2 : QueryOk sample_resolve_os 200 sample_tcp := ⟨rfl, by decide⟩
  ⟨⟨h1, by decide, by decide, h2⟩,
    (C9_resolve_success 64 sample_resolve_os sample_world 100).2.1 h1 (by decide) (by decide)
      sample_tcp h2⟩

theorem C10_resolve_failure_witness :
    ((10038 : DWORD) ≠ ERROR_DEVICE_FEATURE_NOT_SUPPORTED ∧
      QueryFailsWith sample_resolve_os 7 10038) ∧
      (afd_get_protocol_info 64 sample_resolve_os sample_world 7).ret = -1 ∧
      (afd_get_protocol_info 64 sample_resolve_os sample_world 7).world.lastError = 10038 ∧
      (afd_get_protocol_info 64 sample_resolve_os sample_world 7).afd_socket_out = none ∧
      new_calls sample_world (afd_get_protocol_info 64 sample_resolve_os sample_world 7).world =
        [Call.getsockopt 7 false, Call.GetLastError 10038] :=
  ⟨⟨by decide, Or.inl rfl⟩,
    (C10_resolve_failure 64 sample_resolve_os sample_world 7).2.1 10038 (by decide)
      (Or.inl rfl)⟩

end Wepoll
